import Mathlib

/-!
Verification development for the Adaption Prompt v2 tuner
(src/peft/tuners/adaption_prompt_v2.py).

The file shallowly embeds the module-substitution and multi-adapter
lifecycle engine (`AdaptionPromptV2Model` and its helpers), the
configuration validation (`AdaptionPromptV2Config.__post_init__`), the
model-type dispatch table and the output-handling helpers, and the
`AdaptedAttention` / `AdaptedMLP` forward passes.

Modelling conventions:
* Python exceptions are values of `PyErr`.  An operation that mutates the
  model and may raise returns `MState × Option PyErr`; the returned state
  reflects the mutations performed before the exception was raised, as in
  Python.
* A module object graph is modelled by object identities (`Nat`) together
  with a string-keyed attribute map (`getattr` / `setattr`).  The values
  occupying the attribute slots touched by the engine are `MVal`:
  original submodules, `AdaptedAttention` proxies and `AdaptedMLP`
  proxies.  An `MVal` proxy records the adapter name it was created for;
  this is a ghost annotation standing for Python object identity.
* The tensor and autograd runtime is an opaque external collaborator:
  parameter values are an abstract store that no engine operation writes,
  and the numeric kernels of the forward pass are parameters of the
  embedding (`TOps`).
* `named_modules` discovery data (qualified names in traversal order and
  the parent of each qualified name) is supplied by `BaseModel`.  Python
  integer fields `adapter_len` / `adapter_layers` are modelled as `Nat`.
-/

/-- Python exception kinds raised (or propagated) by the code under
verification. -/
inductive PyErr where
  | valueError (msg : String)
  | keyError
  | attributeError
  | indexError
  | assertionError
  | notImplementedError
  | typeError
deriving DecidableEq, Repr

/-- Configuration dataclass `AdaptionPromptV2Config`.  Fields that default
to Python `None` are `Option`s; `adapter_len` and `adapter_layers` are
kept as `Nat` (the code only ever uses non-negative values). -/
structure AdaptionPromptV2Config where
  attention_module : Option String := none
  mlp_module : Option String := none
  adapter_len : Nat := 0
  adapter_layers : Nat := 0
  add_bias : Bool := true
  add_scale : Bool := true
  multi_modal : Bool := false
  supported_modals : Option (List String) := none
  inference_mode : Bool := false
deriving DecidableEq, Repr

/-- Python truthiness of the `supported_modals` field: `None` and the
empty list are falsy, a non-empty list is truthy. -/
def truthyModals : Option (List String) → Bool
  | some (_ :: _) => true
  | _ => false

/-- Dynamically typed values compared with Python `!=` inside
`__post_init__`: the integer `num_modals` and the list produced by the
list comprehension. -/
inductive PyCmpVal where
  | pyInt (n : Nat)
  | pyList (l : List String)
deriving DecidableEq, Repr

/-- Python `!=` on `PyCmpVal`: values of different runtime types are
always unequal (Python default rich comparison across `int` and `list`). -/
def pyNe : PyCmpVal → PyCmpVal → Bool
  | .pyInt a, .pyInt b => a != b
  | .pyList a, .pyList b => a != b
  | _, _ => true

/-- `AdaptionPromptV2Config.__post_init__`.  The `peft_type` assignment is
configuration plumbing and is not modelled.  Returns the constructed
config, or the `ValueError` the constructor raises. -/
def postInit (c : AdaptionPromptV2Config) : Except PyErr AdaptionPromptV2Config :=
  if c.multi_modal && !(truthyModals c.supported_modals) then
    .error (.valueError "name of supported modal has to be specified when is multi_modal mode.")
  else if truthyModals c.supported_modals then
    let l := c.supported_modals.getD []
    let num := l.length
    if pyNe (.pyInt num) (.pyInt l.eraseDups.length) then
      .error (.valueError "duplicate modal name found in supported_modals")
    else if pyNe (.pyInt num) (.pyList (l.filter (fun m => m ≠ ""))) then
      .error (.valueError "modal name cant be empty string.")
    else .ok c
  else .ok c

/-- Entry of `TRANSFORMERS_MODEL_CONFIG` (`ModelTypeConfig` namedtuple).
The `compute_query_states` field is an opaque numeric kernel and is
modelled separately as part of `TOps`. -/
structure ModelTypeConfig where
  attention_module : String
  mlp_module : String
  k_proj_layer : String
  v_proj_layer : String
  o_proj_layer : Option String
deriving DecidableEq, Repr

/-- The `TRANSFORMERS_MODEL_CONFIG` dispatch table. -/
def TRANSFORMERS_MODEL_CONFIG : List (String × ModelTypeConfig) :=
  [ ("llama",
     { attention_module := "self_attn", mlp_module := "mlp",
       k_proj_layer := "k_proj", v_proj_layer := "v_proj", o_proj_layer := some "o_proj" }),
    ("gpt_neox",
     { attention_module := "attention", mlp_module := "mlp",
       k_proj_layer := "query_key_value", v_proj_layer := "query_key_value",
       o_proj_layer := some "dense" }),
    ("gptj",
     { attention_module := "attn", mlp_module := "mlp",
       k_proj_layer := "k_proj", v_proj_layer := "v_proj", o_proj_layer := some "out_proj" }),
    ("moss",
     { attention_module := "attn", mlp_module := "mlp",
       k_proj_layer := "qkv_proj", v_proj_layer := "qkv_proj", o_proj_layer := some "out_proj" }) ]

/-- `prepare_config`: rejects unsupported model types, then fills in the
default attention and mlp submodule names for the model type when the
user left them unset.  The source interpolates the model type into the
error message; the message is kept constant here. -/
def prepare_config (modelType : String) (c : AdaptionPromptV2Config) :
    Except PyErr AdaptionPromptV2Config :=
  match TRANSFORMERS_MODEL_CONFIG.lookup modelType with
  | none => .error (.valueError "Unsupported model type for adaption prompt")
  | some mc =>
      .ok { c with
              attention_module := some (c.attention_module.getD mc.attention_module),
              mlp_module := some (c.mlp_module.getD mc.mlp_module) }

/-- Resolved attention submodule attribute name of a config (total on the
`Option` for convenience; after a successful `prepare_config` the field
is always `some`). -/
def cfgAttn (c : AdaptionPromptV2Config) : String := c.attention_module.getD ""

/-- Resolved mlp submodule attribute name of a config. -/
def cfgMlp (c : AdaptionPromptV2Config) : String := c.mlp_module.getD ""

/-- Module values that can occupy the parent attribute slots the engine
touches: an original submodule of the base model (identified by an object
id), an `AdaptedAttention` proxy or an `AdaptedMLP` proxy wrapping an
inner module.  A proxy records the adapter it was created for (ghost
object identity), its `add_bias` / `add_scale` flags, and for attention
the modal names of its adaption prompts. -/
inductive MVal where
  | orig (oid : Nat)
  | adAttn (adapter : String) (addBias addScale : Bool) (modals : List String) (inner : MVal)
  | adMlp (adapter : String) (addBias addScale : Bool) (inner : MVal)
deriving DecidableEq, Repr

/-- Python attribute access `x.model`: the Adapted* proxies expose the
wrapped module; the original transformer submodules of the supported
architectures have no `model` attribute, so access raises
`AttributeError` (`none`). -/
def MVal.modelAttr : MVal → Option MVal
  | .orig _ => none
  | .adAttn _ _ _ _ m => some m
  | .adMlp _ _ _ m => some m

/-- `isinstance(v, AdaptedAttention)` on an attribute slot. -/
def isAdAttn : Option MVal → Bool
  | some (.adAttn _ _ _ _ _) => true
  | _ => false

/-- `isinstance(v, AdaptedMLP)` on an attribute slot. -/
def isAdMlp : Option MVal → Bool
  | some (.adMlp _ _ _ _) => true
  | _ => false

/-- Parameter names are character lists so that the Python substring test
used by `_mark_only_adaption_prompts_as_trainable` is the `List.IsInfix`
relation. -/
abbrev PName := List Char

/-- Static discovery data of the wrapped pretrained model:
its `config.model_type`, the qualified names yielded by
`named_modules()` in traversal order, the parent object of each
qualified name (`_get_submodules`), a qualified path used to form the
parameter names registered under a parent, the initial attribute slots
of each parent object, and the names of the base model parameters. -/
structure BaseModel where
  modelType : String
  moduleNames : List String
  parentOf : String → Nat
  parentPath : Nat → String
  baseAttrs : Nat → String → Option MVal
  baseParamNames : List PName

/-- Python `str.endswith`. -/
def pyEndsWith (s suffix : String) : Bool := suffix.data.isSuffixOf s.data

/-- Full state of an `AdaptionPromptV2Model`: the mutable attribute graph
of the wrapped model, the `_parents`, `_cached_adapters` and `_configs`
dictionaries (insertion-ordered association lists), `_active_adapter`,
`_enabled`, and the parameter store (names, `requires_grad` flags and the
values of the weight tensors, the latter abstracted to `Int`). -/
structure MState where
  base : BaseModel
  graph : Nat → String → Option MVal
  parentsD : List (String × List Nat)
  cachedD : List (String × List (MVal × MVal))
  configs : List (String × AdaptionPromptV2Config)
  active : Option String
  enabled : Bool
  paramNames : List PName
  reqGrad : PName → Bool
  paramVals : PName → Int

/-- Python dict assignment `d[k] = v`: replaces in place when the key is
present, appends otherwise. -/
def alSet (k : String) (v : α) (d : List (String × α)) : List (String × α) :=
  if (d.lookup k).isSome then
    d.map (fun p => if p.1 = k then (k, v) else p)
  else d ++ [(k, v)]

/-- Python `del d[k]`. -/
def alErase (k : String) (d : List (String × α)) : List (String × α) :=
  d.filter (fun p => p.1 ≠ k)

/-- `setattr(parent, attr, v)` on the module graph. -/
def setattr' (s : MState) (p : Nat) (a : String) (v : MVal) : MState :=
  { s with graph := fun q b => if q = p ∧ b = a then some v else s.graph q b }

/-- The parent-collection loop of `add_adapter` (and of
`freeze_adaption_params`): the parents of all submodules whose qualified
name ends with the configured attention module name, in `named_modules`
traversal order. -/
def findParents (s : MState) (an : String) : List Nat :=
  (s.base.moduleNames.filter (fun nm => pyEndsWith nm an)).map s.base.parentOf

/-- Python slice `parents[-layers:]`.  Note that for `layers = 0` the
slice is `parents[0:]`, the whole list. -/
def keptParents (all : List Nat) (layers : Nat) : List Nat :=
  if layers = 0 then all else all.drop (all.length - layers)

/-- Names of the parameters registered by the constructors of the
Adapted* modules placed under the parent path `pfx`: the per-modal
`adaption_prompts` / `adaption_gates` parameters and, when requested, the
`adaption_bias` / `adaption_scale` parameters of the `AdaptedLinear`
wrappers.  Every such name contains the substring `adaption_`. -/
def adaptionParamNames (pfx : String) (modals : List String) (addBias addScale : Bool) :
    List PName :=
  (modals.map (fun m => (pfx ++ ".adaption_prompts." ++ m).data))
    ++ (modals.map (fun m => (pfx ++ ".adaption_gates." ++ m).data))
    ++ (if addBias then [(pfx ++ ".linears.adaption_bias").data] else [])
    ++ (if addScale then [(pfx ++ ".linears.adaption_scale").data] else [])

/-- Registration of freshly created `nn.Parameter`s: they appear in
`named_parameters()` and have `requires_grad = True`. -/
def registerParams (s : MState) (ns : List PName) : MState :=
  { s with
      paramNames := s.paramNames ++ ns,
      reqGrad := fun n => if n ∈ ns then true else s.reqGrad n }

/-- The modal names of the adaption prompts created by
`AdaptedAttention.__init__`: the supplied `supported_modals` when truthy,
otherwise the single modal `"text"`. -/
def attnModals : Option (List String) → List String
  | some (m :: rest) => m :: rest
  | _ => ["text"]

/-- The loop body of `_create_adapted_modules`.  `adapter` is the name of
the adapter being created (ghost identity for the created proxies) and
`i` the running `enumerate` index.  For `multi_modal` configs the parent
at index 0 receives only an `AdaptedAttention` (with
`add_bias=False, add_scale=False` and the configured modals); every other
parent receives an `AdaptedAttention` and an `AdaptedMLP`.  The
`AdaptedAttention` / `AdaptedMLP` constructors assert that the module
being wrapped is not already an Adapted* proxy of the same class. -/
def createAdaptedModules (adapter : String) (cfg : AdaptionPromptV2Config)
    (ps : List Nat) (i : Nat) (s : MState) : MState × Option PyErr :=
  match ps with
  | [] => (s, none)
  | p :: rest =>
    if cfg.multi_modal = true ∧ i = 0 then
      match s.graph p (cfgAttn cfg) with
      | none => (s, some .attributeError)
      | some m =>
        if isAdAttn (some m) then (s, some .assertionError) else
        createAdaptedModules adapter cfg rest (i + 1)
          (setattr'
            (registerParams s
              (adaptionParamNames (s.base.parentPath p ++ "." ++ cfgAttn cfg)
                (attnModals cfg.supported_modals) false false))
            p (cfgAttn cfg)
            (.adAttn adapter false false (attnModals cfg.supported_modals) m))
    else
      match s.graph p (cfgAttn cfg) with
      | none => (s, some .attributeError)
      | some am =>
        if isAdAttn (some am) then (s, some .assertionError) else
        match s.graph p (cfgMlp cfg) with
        | none => (s, some .attributeError)
        | some mm =>
          if isAdMlp (some mm) then (s, some .assertionError) else
          createAdaptedModules adapter cfg rest (i + 1)
            (setattr'
              (setattr'
                (registerParams
                  (registerParams s
                    (adaptionParamNames (s.base.parentPath p ++ "." ++ cfgAttn cfg)
                      ["text"] cfg.add_bias cfg.add_scale))
                  (adaptionParamNames (s.base.parentPath p ++ "." ++ cfgMlp cfg)
                    [] cfg.add_bias cfg.add_scale))
                p (cfgAttn cfg) (.adAttn adapter cfg.add_bias cfg.add_scale ["text"] am))
              p (cfgMlp cfg) (.adMlp adapter cfg.add_bias cfg.add_scale mm))

/-- The loop of `_remove_adapted_modules`: for each parent, read the
attention and mlp slots, record the pair, and write back `attn.model` and
`mlp.model`.  Mutations performed before a raised `AttributeError` are
kept, as in Python. -/
def removeLoop (an mn : String) (ps : List Nat) (acc : List (MVal × MVal)) (s : MState) :
    MState × Except PyErr (List (MVal × MVal)) :=
  match ps with
  | [] => (s, .ok acc)
  | p :: rest =>
    match s.graph p an with
    | none => (s, .error .attributeError)
    | some attn =>
      match s.graph p mn with
      | none => (s, .error .attributeError)
      | some mlp =>
        match attn.modelAttr with
        | none => (s, .error .attributeError)
        | some am =>
          match mlp.modelAttr with
          | none => (setattr' s p an am, .error .attributeError)
          | some mm =>
            removeLoop an mn rest (acc ++ [(attn, mlp)]) (setattr' (setattr' s p an am) p mn mm)

/-- `_remove_adapted_modules`: unwraps the Adapted* modules of the named
adapter and stores the removed pairs in `_cached_adapters`.  The cache
entry is only written after the whole loop succeeds, as in the source. -/
def remove_adapted_modules (name : Option String) (s : MState) : MState × Option PyErr :=
  match name with
  | none => (s, some .keyError)
  | some a =>
    match s.configs.lookup a with
    | none => (s, some .keyError)
    | some cfg =>
      match s.parentsD.lookup a with
      | none => (s, some .keyError)
      | some ps =>
        match removeLoop (cfgAttn cfg) (cfgMlp cfg) ps [] s with
        | (s', .error e) => (s', some e)
        | (s', .ok groups) => ({ s' with cachedD := alSet a groups s'.cachedD }, none)

/-- The loop of `_set_adapted_modules`: installs `cached[i][0]` at the
attention slot and `cached[i][1]` at the mlp slot of the i-th parent. -/
def setLoop (an mn : String) (cached : List (MVal × MVal)) (ps : List Nat) (i : Nat)
    (s : MState) : MState × Option PyErr :=
  match ps with
  | [] => (s, none)
  | p :: rest =>
    match cached[i]? with
    | none => (s, some .indexError)
    | some pr =>
      setLoop an mn cached rest (i + 1) (setattr' (setattr' s p an pr.1) p mn pr.2)

/-- `_set_adapted_modules`: pops the cache entry of the named adapter and
re-installs the cached Adapted* modules on that adapter parents.  The
cache entry is deleted before the loop runs, as in the source. -/
def set_adapted_modules (name : Option String) (s : MState) : MState × Option PyErr :=
  match name with
  | none => (s, some .keyError)
  | some a =>
    match s.cachedD.lookup a with
    | none => (s, some .keyError)
    | some cached =>
      match s.configs.lookup a with
      | none => ({ s with cachedD := alErase a s.cachedD }, some .keyError)
      | some cfg =>
        match s.parentsD.lookup a with
        | none => ({ s with cachedD := alErase a s.cachedD }, some .keyError)
        | some ps =>
          setLoop (cfgAttn cfg) (cfgMlp cfg) cached ps 0
            { s with cachedD := alErase a s.cachedD }

/-- `_freeze_adapter` is imported from `peft.utils.other` and is not part
of this file.  Modelled from the spec: configuration plumbing for
inference mode that only clears `requires_grad` flags of the adapter
parameters; it never writes weight values. -/
def freeze_adapter (name : String) (s : MState) : MState :=
  { s with reqGrad := fun n => if name.data <:+: n then false else s.reqGrad n }

/-- Exception sequencing: run the continuation on the resulting state
unless the previous statement raised, in which case the exception
propagates with the partially mutated state, as in Python. -/
def bindOp (r : MState × Option PyErr) (k : MState → MState × Option PyErr) :
    MState × Option PyErr :=
  match r with
  | (s, some e) => (s, some e)
  | (s, none) => k s

/-- The parent list kept by `add_adapter`: `parents[-adapter_layers:]`,
with `first_parent` prepended when the config is multi-modal and the
first parent is not already among the kept ones. -/
def addKept (allP : List Nat) (firstP : Nat) (cfg : AdaptionPromptV2Config) : List Nat :=
  if cfg.multi_modal = true ∧ firstP ∉ keptParents allP cfg.adapter_layers
  then firstP :: keptParents allP cfg.adapter_layers
  else keptParents allP cfg.adapter_layers

/-- The mutating tail of `add_adapter`, run on the state that already has
`_parents[name]` recorded: remove the active adapter modules when one is
installed, record the new active adapter and its config, create its
Adapted* modules, remove them again when the engine is disabled, and
freeze the adapter in inference mode. -/
def addInstall (name : String) (cfg : AdaptionPromptV2Config) (kept : List Nat)
    (s1 : MState) : MState × Option PyErr :=
  bindOp (if s1.active ≠ none ∧ s1.enabled = true
          then remove_adapted_modules s1.active s1 else (s1, none)) (fun s2 =>
    bindOp (createAdaptedModules name cfg kept 0
        { s2 with active := some name, configs := alSet name cfg s2.configs }) (fun s4 =>
      bindOp (if s4.enabled = false
              then remove_adapted_modules (some name) s4 else (s4, none)) (fun s5 =>
        if cfg.inference_mode then (freeze_adapter name s5, none) else (s5, none))))

/-- `AdaptionPromptV2Model.add_adapter`. -/
def add_adapter (name : String) (cfg0 : AdaptionPromptV2Config) (s : MState) :
    MState × Option PyErr :=
  match prepare_config s.base.modelType cfg0 with
  | .error e => (s, some e)
  | .ok cfg =>
    if (s.configs.lookup name).isSome then
      (s, some (.valueError "Adapter with name already exists."))
    else if (findParents s (cfgAttn cfg)).length < cfg.adapter_layers then
      (s, some (.valueError "Config specifies more adapter layers than the model has"))
    else
      match (findParents s (cfgAttn cfg)).head? with
      | none => (s, some .indexError)
      | some firstP =>
        addInstall name cfg (addKept (findParents s (cfgAttn cfg)) firstP cfg)
          { s with parentsD :=
              alSet name (addKept (findParents s (cfgAttn cfg)) firstP cfg) s.parentsD }

/-- `AdaptionPromptV2Model.set_adapter`. -/
def set_adapter (name : String) (s : MState) : MState × Option PyErr :=
  if s.active = some name then (s, none)
  else if (s.configs.lookup name).isNone then
    (s, some (.valueError "Adapter with name does not exist."))
  else if s.enabled = true then
    bindOp (remove_adapted_modules s.active s) (fun s1 =>
      bindOp (set_adapted_modules (some name) s1) (fun s2 =>
        ({ s2 with active := some name }, none)))
  else ({ s with active := some name }, none)

/-- `AdaptionPromptV2Model.enable_adapter_layers`. -/
def enable_adapter_layers (s : MState) : MState × Option PyErr :=
  set_adapted_modules s.active { s with enabled := true }

/-- `AdaptionPromptV2Model.disable_adapter_layers`. -/
def disable_adapter_layers (s : MState) : MState × Option PyErr :=
  remove_adapted_modules s.active { s with enabled := false }

/-- The substring probed by `_mark_only_adaption_prompts_as_trainable`. -/
def adaptionSub : PName := "adaption_".data

/-- The loop of `_mark_only_adaption_prompts_as_trainable`: clear
`requires_grad` of every parameter whose name does not contain the
substring `adaption_`. -/
def markLoop (ns : List PName) (rg : PName → Bool) : PName → Bool :=
  match ns with
  | [] => rg
  | n :: rest =>
    markLoop rest (if adaptionSub <:+: n then rg else fun m => if m = n then false else rg m)

/-- `AdaptionPromptV2Model._mark_only_adaption_prompts_as_trainable`. -/
def mark_only_adaption_prompts_as_trainable (s : MState) : MState :=
  { s with reqGrad := markLoop s.paramNames s.reqGrad }

/-- Freshly wrapped model state before any adapter is added (the state
built by the first lines of `AdaptionPromptV2Model.__init__`).  `rg` and
`pv` are the initial `requires_grad` flags and weight values of the base
model parameters. -/
def freshState (b : BaseModel) (rg : PName → Bool) (pv : PName → Int) : MState :=
  { base := b, graph := b.baseAttrs, parentsD := [], cachedD := [], configs := [],
    active := none, enabled := true, paramNames := b.baseParamNames,
    reqGrad := rg, paramVals := pv }

/-- `AdaptionPromptV2Model.__init__`: wraps the model, adds the initial
adapter and freezes everything except the adaption prompts. -/
def initModel (b : BaseModel) (rg : PName → Bool) (pv : PName → Int)
    (name : String) (cfg : AdaptionPromptV2Config) : MState × Option PyErr :=
  match add_adapter name cfg (freshState b rg pv) with
  | (s, some e) => (s, some e)
  | (s, none) => (mark_only_adaption_prompts_as_trainable s, none)

/-! ### The AdaptedAttention and AdaptedMLP forward passes

The forward passes are embedded over an abstract tensor type `T` and an
abstract past-key-value type `P`; the numeric kernels the spec declares
out of scope (matrix multiply, softmax, reshaping, the wrapped module
call and the model-specific query recomputation) are the fields of a
`TOps` bundle supplied to the embedding. -/

/-- An original `nn.Linear` child of a wrapped module, identified by an
object id. -/
structure LinMod where
  lid : Nat
deriving DecidableEq, Repr

/-- An `AdaptedLinear` wrapper around an `nn.Linear` module. -/
structure ALin where
  model : LinMod
  addBias : Bool
  addScale : Bool
deriving DecidableEq, Repr

/-- Values occupying the child attribute slots of a wrapped attention or
mlp module: a plain `nn.Linear` or an `AdaptedLinear` wrapper. -/
inductive LChild where
  | lin (l : LinMod)
  | alin (a : ALin)
deriving DecidableEq, Repr

/-- Elements of the heterogeneous Python tuples returned by the wrapped
attention modules and by the adapted forward: tensors, past-key-value
objects and `None`. -/
inductive PyV (T P : Type) where
  | tensor (t : T)
  | past (p : P)
  | pynone
deriving DecidableEq

/-- `handle_origin_attention_module_outputs`: destructures the output
tuple of the wrapped attention module per model type.  The llama branch
unpacks a 3-tuple (a wrong arity raises `ValueError` in Python); the
other supported branches index positions 0 and 1; any other model type
raises `ValueError`. -/
def handle_origin_attention_module_outputs (mt : String) (outputs : List (PyV T P)) :
    Except PyErr (PyV T P × PyV T P) :=
  if mt = "llama" then
    match outputs with
    | [o, _, pkv] => .ok (o, pkv)
    | _ => .error (.valueError "unpack")
  else if mt = "gpt_neox" ∨ mt = "gptj" ∨ mt = "moss" then
    match outputs[0]?, outputs[1]? with
    | some o, some pkv => .ok (o, pkv)
    | _, _ => .error .indexError
  else .error (.valueError "Unsupported model type")

/-- `organize_adapted_attention_model_outputs`: rebuilds the output tuple
in the order expected for the model type, raising `ValueError` for any
other model type. -/
def organize_adapted_attention_model_outputs (mt : String) (ao : T) (aw : PyV T P)
    (pkv : PyV T P) : Except PyErr (List (PyV T P)) :=
  if mt = "llama" then .ok [.tensor ao, aw, pkv]
  else if mt = "gpt_neox" ∨ mt = "gptj" ∨ mt = "moss" then .ok [.tensor ao, pkv, aw]
  else .error (.valueError "Unsupported model type")

/-- State of an `AdaptedAttention` (or `AdaptedMLP`) proxy at forward
time: the shapes read from the base config, the per-modal
`adaption_prompts` and `adaption_gates` parameter dictionaries (prompt
and gate tensors of type `T`), the `linears` `ModuleDict` of
`AdaptedLinear` wrappers, the current child attribute slots of the
wrapped module, and the abstract weight-value store of the wrapped
parameters (never written by a forward pass). -/
structure AttnState (T : Type) where
  modelType : String
  hiddenSize : Nat
  adapterLen : Nat
  prompts : List (String × T)
  gates : List (String × T)
  linears : List (String × ALin)
  attrs : String → Option LChild
  vals : Nat → Int

/-- The `linears` `ModuleDict` built by the Adapted* constructors: one
`AdaptedLinear` per child of the wrapped module that is an `nn.Linear`. -/
def collectLinears (children : List (String × LChild)) (addBias addScale : Bool) :
    List (String × ALin) :=
  children.filterMap (fun pr =>
    match pr.2 with
    | .lin l => some (pr.1, ⟨l, addBias, addScale⟩)
    | .alin _ => none)

/-- `AdaptedAttention.__init__` over the abstract tensor type:
`promptInit` and `gateInit` stand for the freshly initialized
`nn.Parameter` tensors. -/
def mkAdaptedAttention (mt : String) (hiddenSize adapterLen : Nat)
    (modals : Option (List String)) (promptInit gateInit : String → T)
    (children : List (String × LChild)) (addBias addScale : Bool) (vals : Nat → Int) :
    AttnState T :=
  let ms := attnModals modals
  { modelType := mt, hiddenSize := hiddenSize, adapterLen := adapterLen,
    prompts := ms.map (fun m => (m, promptInit m)),
    gates := ms.map (fun m => (m, gateInit m)),
    linears := collectLinears children addBias addScale,
    attrs := fun n => (children.lookup n).map id,
    vals := vals }

/-- `_set_adapted_linears`: install every `AdaptedLinear` wrapper on the
wrapped module. -/
def setAdaptedLinears (ls : List (String × ALin)) (f : String → Option LChild) :
    String → Option LChild :=
  ls.foldl (fun g pr => fun m => if m = pr.1 then some (.alin pr.2) else g m) f

/-- `_remove_adapted_linears`: restore the original `nn.Linear` modules. -/
def removeAdaptedLinears (ls : List (String × ALin)) (f : String → Option LChild) :
    String → Option LChild :=
  ls.foldl (fun g pr => fun m => if m = pr.1 then some (.lin pr.2.model) else g m) f

/-- The opaque numeric kernels used by `AdaptedAttention.forward`.
`baseCall` is the call of the wrapped attention module (it sees the
current child attribute slots, hence the installed `AdaptedLinear`s);
`computeQuery` is the model-specific `compute_query_states` kernel;
`applyChild` is application of a child layer to a tensor; the remaining
fields are the torch reshaping and arithmetic primitives used by the
adapter computation. -/
structure TOps (T P : Type) where
  baseCall : (String → Option LChild) → Option T → List (PyV T P)
  computeQuery : (String → Option LChild) → Option T → T
  applyChild : LChild → T → T
  splitChunks : T → Nat → List T
  viewRepT : T → T
  matmulT : T → T → T
  transpose23 : T → T
  typeAs : T → T → T
  scaleScores : T → T
  softmaxF : T → T
  gateMul : T → T → T
  reshapeOut : T → T
  addT : T → T → T

/-- Computation of the raw adapter key and value tensors of one modal
prompt: when the model type fuses key and value into one projection the
projected prompt is split into `hidden_size` chunks and chunks 1 and 2
are the key and value (a chunk count other than 3 makes the Python
unpacking raise `ValueError`); otherwise the key and value projections
are applied separately.  The projection layers are read from the current
child attribute slots of the wrapped module. -/
def projKV (TO : TOps T P) (mtc : ModelTypeConfig) (hiddenSize : Nat)
    (attrs : String → Option LChild) (prompt : T) : Except PyErr (T × T) :=
  if mtc.k_proj_layer = mtc.v_proj_layer then
    match attrs mtc.k_proj_layer with
    | none => .error .attributeError
    | some ck =>
      match TO.splitChunks (TO.applyChild ck prompt) hiddenSize with
      | [_, k, v] => .ok (k, v)
      | _ => .error (.valueError "unpack")
  else
    match attrs mtc.k_proj_layer, attrs mtc.v_proj_layer with
    | some ck, some cv => .ok (TO.applyChild ck prompt, TO.applyChild cv prompt)
    | _, _ => .error .attributeError

/-- The first loop of `AdaptedAttention.forward`: builds
`modal2adapter_kv`, mapping each modal to its `(adapter_k, adapter_v)`
pair (the projected prompt put through the view / repeat / transpose
pipeline). -/
def kvLoop (TO : TOps T P) (mtc : ModelTypeConfig) (hiddenSize : Nat)
    (attrs : String → Option LChild) (ps : List (String × T)) :
    Except PyErr (List (String × (T × T))) :=
  match ps with
  | [] => .ok []
  | (m, pr) :: rest =>
    match projKV TO mtc hiddenSize attrs pr with
    | .error e => .error e
    | .ok kv =>
      match kvLoop TO mtc hiddenSize attrs rest with
      | .error e => .error e
      | .ok r => .ok ((m, (TO.viewRepT kv.1, TO.viewRepT kv.2)) :: r)

/-- The second loop of `AdaptedAttention.forward`: for each modal,
compute `adaption_gate * softmax(query @ adapter_k^T / sqrt(head_dim))`,
multiply by `adapter_v`, reshape, apply the o-projection layer when one
is configured, and add the result to the running output. -/
def adapterAccum (TO : TOps T P) (mtc : ModelTypeConfig)
    (attrs : String → Option LChild) (gates : List (String × T)) (q : T)
    (kvs : List (String × (T × T))) (out : T) : Except PyErr T :=
  match kvs with
  | [] => .ok out
  | (m, kv) :: rest =>
    match gates.lookup m with
    | none => .error .keyError
    | some g =>
      let scores := TO.scaleScores (TO.matmulT (TO.typeAs q kv.1) (TO.transpose23 kv.1))
      let scores := TO.gateMul g (TO.softmaxF scores)
      let ao := TO.reshapeOut (TO.matmulT scores kv.2)
      match (match mtc.o_proj_layer with
             | none => .ok ao
             | some oL =>
               match attrs oL with
               | none => .error .attributeError
               | some oc => .ok (TO.applyChild oc ao) : Except PyErr T) with
      | .error e => .error e
      | .ok ao2 => adapterAccum TO mtc attrs gates q rest (TO.addT out ao2)

/-- `AdaptedAttention.forward`.  Mirrors the source statement order:
reject `output_attention`, install the `AdaptedLinear` wrappers, call the
wrapped module and destructure its outputs, recompute the query states,
read the batch size from the output tensor (a non-tensor output raises),
build the per-modal `(adapter_k, adapter_v)` pairs, accumulate the
per-modal additive adapter outputs, restore the original linears and
reassemble the output tuple.  On an exception the wrappers stay
installed, as in Python. -/
def attnForward (TO : TOps T P) (A : AttnState T) (hidden : Option T)
    (outputAttention : Bool) : AttnState T × Except PyErr (List (PyV T P)) :=
  if outputAttention then (A, .error .notImplementedError) else
  let attrs1 := setAdaptedLinears A.linears A.attrs
  let A1 := { A with attrs := attrs1 }
  match handle_origin_attention_module_outputs A.modelType (TO.baseCall attrs1 hidden) with
  | .error e => (A1, .error e)
  | .ok (outPv, pkv) =>
    match TRANSFORMERS_MODEL_CONFIG.lookup A.modelType with
    | none => (A1, .error .keyError)
    | some mtc =>
      let q := TO.computeQuery attrs1 hidden
      match outPv with
      | .tensor out0 =>
        match kvLoop TO mtc A.hiddenSize attrs1 A.prompts with
        | .error e => (A1, .error e)
        | .ok kvs =>
          match adapterAccum TO mtc attrs1 A.gates q kvs out0 with
          | .error e => (A1, .error e)
          | .ok out =>
            let A2 := { A1 with attrs := removeAdaptedLinears A.linears A1.attrs }
            (A2, organize_adapted_attention_model_outputs A.modelType out .pynone pkv)
      | _ => (A1, .error .attributeError)

/-- State of an `AdaptedMLP` proxy: the `linears` `ModuleDict`, the child
attribute slots of the wrapped mlp module and the abstract weight-value
store. -/
structure MlpState where
  linears : List (String × ALin)
  attrs : String → Option LChild
  vals : Nat → Int

/-- `AdaptedMLP.__init__` over the abstract embedding. -/
def mkAdaptedMLP (children : List (String × LChild)) (addBias addScale : Bool)
    (vals : Nat → Int) : MlpState :=
  { linears := collectLinears children addBias addScale,
    attrs := fun n => (children.lookup n).map id,
    vals := vals }

/-- `AdaptedMLP.forward`: install the `AdaptedLinear` wrappers, delegate
to the wrapped module (the opaque kernel `f`, which sees the installed
wrappers), restore the original linears and return the result. -/
def mlpForward (f : (String → Option LChild) → T) (M : MlpState) : MlpState × T :=
  let attrs1 := setAdaptedLinears M.linears M.attrs
  let out := f attrs1
  ({ M with attrs := removeAdaptedLinears M.linears attrs1 }, out)

/-! ### Theorems -/

/-- C8: constructing an `AdaptionPromptV2Config` with a non-empty
`supported_modals` list always raises `ValueError` (the final
`__post_init__` check compares the integer modal count with a list,
which Python `!=` never deems equal), and likewise any config with
`multi_modal = True` is rejected, so no multi-modal config can be
constructed through the dataclass constructor. -/
theorem postInit_always_rejects_supported_modals (c : AdaptionPromptV2Config)
    (h : c.multi_modal = true ∨ ∃ l, c.supported_modals = some l ∧ l ≠ []) :
    (∃ m, postInit c = .error (.valueError m)) ∧
      (∀ (n : Nat) (l : List String), pyNe (.pyInt n) (.pyList l) = true) := by
  refine ⟨?_, fun n l => rfl⟩
  unfold postInit
  rcases hm : c.supported_modals with _ | l
  · rcases h with h | ⟨l, hl, _⟩
    · rw [h]
      simp [truthyModals]
    · rw [hm] at hl
      cases hl
  · cases l with
    | nil =>
      rcases h with h | ⟨l, hl, hne⟩
      · rw [h]
        simp [truthyModals]
      · rw [hm] at hl
        cases hl
        exact absurd rfl hne
    | cons x xs =>
      simp only [truthyModals, Bool.not_true, Bool.and_false, Bool.false_eq_true,
        if_false, if_true, Option.getD_some]
      split
      · exact ⟨_, rfl⟩
      · simp only [pyNe]
        exact ⟨_, rfl⟩

/-- C8 witness. -/
theorem postInit_always_rejects_supported_modals_witness :
    (∃ m, postInit { supported_modals := some ["image"] } = .error (.valueError m)) ∧
      (∀ (n : Nat) (l : List String), pyNe (.pyInt n) (.pyList l) = true) :=
  postInit_always_rejects_supported_modals { supported_modals := some ["image"] }
    (Or.inr ⟨["image"], rfl, by decide⟩)

/-- C7: the dispatch table supports exactly `llama`, `gpt_neox`, `gptj`
and `moss`; for any other model type, `add_adapter` raises `ValueError`
through `prepare_config` without changing the model state, and the
output-handling helpers raise `ValueError` as well. -/
theorem unsupported_model_type_rejected {T P : Type} (mt : String)
    (h : mt ∉ (["llama", "gpt_neox", "gptj", "moss"] : List String)) :
    TRANSFORMERS_MODEL_CONFIG.map Prod.fst = ["llama", "gpt_neox", "gptj", "moss"] ∧
    (∀ (n : String) (c : AdaptionPromptV2Config) (s : MState), s.base.modelType = mt →
      add_adapter n c s = (s, some (.valueError "Unsupported model type for adaption prompt"))) ∧
    (∀ outputs : List (PyV T P),
      handle_origin_attention_module_outputs mt outputs
        = .error (.valueError "Unsupported model type")) ∧
    (∀ (ao : T) (aw pkv : PyV T P),
      organize_adapted_attention_model_outputs mt ao aw pkv
        = .error (.valueError "Unsupported model type")) := by
  simp only [List.mem_cons, List.not_mem_nil, or_false, not_or] at h
  obtain ⟨h1, h2, h3, h4⟩ := h
  have e1 : (mt == "llama") = false := beq_eq_false_iff_ne.mpr h1
  have e2 : (mt == "gpt_neox") = false := beq_eq_false_iff_ne.mpr h2
  have e3 : (mt == "gptj") = false := beq_eq_false_iff_ne.mpr h3
  have e4 : (mt == "moss") = false := beq_eq_false_iff_ne.mpr h4
  have hlook : TRANSFORMERS_MODEL_CONFIG.lookup mt = none := by
    simp [TRANSFORMERS_MODEL_CONFIG, List.lookup, e1, e2, e3, e4]
  refine ⟨rfl, ?_, ?_, ?_⟩
  · intro n c s hs
    unfold add_adapter prepare_config
    rw [hs, hlook]
  · intro outputs
    unfold handle_origin_attention_module_outputs
    rw [if_neg h1, if_neg (by simp [h2, h3, h4])]
  · intro ao aw pkv
    unfold organize_adapted_attention_model_outputs
    rw [if_neg h1, if_neg (by simp [h2, h3, h4])]

/-- C7 witness at the unsupported model type `bert`. -/
theorem unsupported_model_type_rejected_witness :
    TRANSFORMERS_MODEL_CONFIG.map Prod.fst = ["llama", "gpt_neox", "gptj", "moss"] ∧
    (∀ (n : String) (c : AdaptionPromptV2Config) (s : MState), s.base.modelType = "bert" →
      add_adapter n c s = (s, some (.valueError "Unsupported model type for adaption prompt"))) ∧
    (∀ outputs : List (PyV Nat Nat),
      handle_origin_attention_module_outputs "bert" outputs
        = .error (.valueError "Unsupported model type")) ∧
    (∀ (ao : Nat) (aw pkv : PyV Nat Nat),
      organize_adapted_attention_model_outputs "bert" ao aw pkv
        = .error (.valueError "Unsupported model type")) :=
  unsupported_model_type_rejected (T := Nat) (P := Nat) "bert" (by decide)

/-! ### Frame lemmas: no lifecycle operation writes weight values -/

theorem removeLoop_result_paramVals {an mn : String} {ps : List Nat} :
    ∀ {acc : List (MVal × MVal)} {s : MState}
      {r : MState × Except PyErr (List (MVal × MVal))},
      removeLoop an mn ps acc s = r → r.1.paramVals = s.paramVals := by
  induction ps with
  | nil => intro acc s r h; cases h; rfl
  | cons p rest ih =>
    intro acc s r h
    unfold removeLoop at h
    try dsimp only at h
    split at h
    · cases h; rfl
    · split at h
      · cases h; rfl
      · split at h
        · cases h; rfl
        · split at h
          · cases h; rfl
          · have := ih h
            exact this

theorem remove_result_paramVals {name : Option String} {s : MState}
    {r : MState × Option PyErr} (h : remove_adapted_modules name s = r) :
    r.1.paramVals = s.paramVals := by
  unfold remove_adapted_modules at h
  split at h
  · cases h; rfl
  · split at h
    · cases h; rfl
    · split at h
      · cases h; rfl
      · split at h
        · next heq => cases h; exact removeLoop_result_paramVals heq
        · next heq => cases h; exact removeLoop_result_paramVals heq

theorem ite_remove_paramVals (c : Prop) [Decidable c] (name : Option String) (s : MState) :
    ((if c then remove_adapted_modules name s else (s, none)).1).paramVals = s.paramVals := by
  split
  · exact remove_result_paramVals rfl
  · rfl

theorem setLoop_result_paramVals {an mn : String} {cached : List (MVal × MVal)}
    {ps : List Nat} :
    ∀ {i : Nat} {s : MState} {r : MState × Option PyErr},
      setLoop an mn cached ps i s = r → r.1.paramVals = s.paramVals := by
  induction ps with
  | nil => intro i s r h; cases h; rfl
  | cons p rest ih =>
    intro i s r h
    unfold setLoop at h
    try dsimp only at h
    split at h
    · cases h; rfl
    · have := ih h
      exact this

theorem setmods_result_paramVals {name : Option String} {s : MState}
    {r : MState × Option PyErr} (h : set_adapted_modules name s = r) :
    r.1.paramVals = s.paramVals := by
  unfold set_adapted_modules at h
  split at h
  · cases h; rfl
  · split at h
    · cases h; rfl
    · try dsimp only at h
      split at h
      · cases h; rfl
      · split at h
        · cases h; rfl
        · have := setLoop_result_paramVals h
          exact this

theorem createAdaptedModules_result_paramVals {adapter : String}
    {cfg : AdaptionPromptV2Config} {ps : List Nat} :
    ∀ {i : Nat} {s : MState} {r : MState × Option PyErr},
      createAdaptedModules adapter cfg ps i s = r → r.1.paramVals = s.paramVals := by
  induction ps with
  | nil => intro i s r h; cases h; rfl
  | cons p rest ih =>
    intro i s r h
    unfold createAdaptedModules at h
    try dsimp only at h
    split at h
    · split at h
      · cases h; rfl
      · split at h
        · cases h; rfl
        · have := ih h
          exact this
    · split at h
      · cases h; rfl
      · split at h
        · cases h; rfl
        · split at h
          · cases h; rfl
          · split at h
            · cases h; rfl
            · have := ih h
              exact this

theorem bindOp_result_paramVals {r : MState × Option PyErr}
    {k : MState → MState × Option PyErr} {out : MState × Option PyErr}
    (h : bindOp r k = out) (hk : ∀ s', (k s').1.paramVals = s'.paramVals) :
    out.1.paramVals = r.1.paramVals := by
  unfold bindOp at h
  split at h
  · cases h; rfl
  · rw [← h]
    exact hk _

theorem addInstall_result_paramVals {name : String} {cfg : AdaptionPromptV2Config}
    {kept : List Nat} {s1 : MState} {r : MState × Option PyErr}
    (h : addInstall name cfg kept s1 = r) : r.1.paramVals = s1.paramVals := by
  unfold addInstall at h
  have h4 : ∀ s4 : MState,
      ((bindOp (if s4.enabled = false
          then remove_adapted_modules (some name) s4 else (s4, none)) (fun s5 =>
        if cfg.inference_mode then (freeze_adapter name s5, none)
        else (s5, none))).1).paramVals = s4.paramVals := by
    intro s4
    have hb := bindOp_result_paramVals (r := (if s4.enabled = false
        then remove_adapted_modules (some name) s4 else (s4, none))) rfl
      (k := fun s5 => if cfg.inference_mode then (freeze_adapter name s5, none)
        else (s5, none)) ?_
    · exact hb.trans (ite_remove_paramVals _ _ _)
    · intro s5
      split
      · rfl
      · rfl
  have h2 : ∀ s2 : MState,
      ((bindOp (createAdaptedModules name cfg kept 0
          { s2 with active := some name, configs := alSet name cfg s2.configs })
        (fun s4 => bindOp (if s4.enabled = false
            then remove_adapted_modules (some name) s4 else (s4, none)) (fun s5 =>
          if cfg.inference_mode then (freeze_adapter name s5, none)
          else (s5, none)))).1).paramVals = s2.paramVals := by
    intro s2
    have hc := bindOp_result_paramVals (r := createAdaptedModules name cfg kept 0
      { s2 with active := some name, configs := alSet name cfg s2.configs }) rfl h4
    have hcr := createAdaptedModules_result_paramVals
      (s := { s2 with active := some name, configs := alSet name cfg s2.configs })
      (r := createAdaptedModules name cfg kept 0
        { s2 with active := some name, configs := alSet name cfg s2.configs }) rfl
    exact hc.trans hcr
  have hout := bindOp_result_paramVals h h2
  exact hout.trans (ite_remove_paramVals _ _ _)

theorem add_adapter_result_paramVals {name : String} {cfg : AdaptionPromptV2Config}
    {s : MState} {r : MState × Option PyErr} (h : add_adapter name cfg s = r) :
    r.1.paramVals = s.paramVals := by
  unfold add_adapter at h
  split at h
  · cases h; rfl
  · split at h
    · cases h; rfl
    · split at h
      · cases h; rfl
      · split at h
        · cases h; rfl
        · have := addInstall_result_paramVals h
          exact this

theorem set_adapter_result_paramVals {name : String} {s : MState}
    {r : MState × Option PyErr} (h : set_adapter name s = r) :
    r.1.paramVals = s.paramVals := by
  unfold set_adapter at h
  split at h
  · cases h; rfl
  · split at h
    · cases h; rfl
    · split at h
      · rw [← h]
        have hb := bindOp_result_paramVals (r := remove_adapted_modules s.active s) rfl
          (k := fun s1 => bindOp (set_adapted_modules (some name) s1) (fun s2 =>
            ({ s2 with active := some name }, none))) ?_
        · exact hb.trans (remove_result_paramVals rfl)
        · intro s1
          have hb2 := bindOp_result_paramVals (r := set_adapted_modules (some name) s1) rfl
            (k := fun s2 => ({ s2 with active := some name }, none)) (fun s2 => rfl)
          exact hb2.trans (setmods_result_paramVals rfl)
      · cases h; rfl

theorem enable_result_paramVals {s : MState} {r : MState × Option PyErr}
    (h : enable_adapter_layers s = r) : r.1.paramVals = s.paramVals := by
  unfold enable_adapter_layers at h
  have := setmods_result_paramVals h
  exact this

theorem disable_result_paramVals {s : MState} {r : MState × Option PyErr}
    (h : disable_adapter_layers s = r) : r.1.paramVals = s.paramVals := by
  unfold disable_adapter_layers at h
  have := remove_result_paramVals h
  exact this

theorem attnForward_result_vals {T P : Type} {TO : TOps T P} {A : AttnState T}
    {hid : Option T} {oa : Bool} {r : AttnState T × Except PyErr (List (PyV T P))}
    (h : attnForward TO A hid oa = r) : r.1.vals = A.vals := by
  unfold attnForward at h
  split at h
  · cases h; rfl
  · dsimp only at h
    split at h
    · cases h; rfl
    · split at h
      · cases h; rfl
      · split at h
        · split at h
          · cases h; rfl
          · split at h
            · cases h; rfl
            · cases h; rfl
        · cases h; rfl

/-! ### Trainability marking -/

theorem markLoop_not_mem {ns : List PName} :
    ∀ {rg : PName → Bool} {n : PName}, n ∉ ns → markLoop ns rg n = rg n := by
  induction ns with
  | nil => intro rg n _; rfl
  | cons m rest ih =>
    intro rg n hn
    have hnm : n ≠ m := fun e => hn (e ▸ List.mem_cons_self m rest)
    have hnr : n ∉ rest := fun e => hn (List.mem_cons_of_mem m e)
    unfold markLoop
    rw [ih hnr]
    split
    · rfl
    · simp [hnm]

theorem markLoop_clears {ns : List PName} :
    ∀ {rg : PName → Bool} {n : PName}, n ∈ ns → ¬ (adaptionSub <:+: n) →
      markLoop ns rg n = false := by
  induction ns with
  | nil => intro rg n hn _; cases hn
  | cons m rest ih =>
    intro rg n hn hinf
    by_cases hr : n ∈ rest
    · unfold markLoop
      exact ih hr hinf
    · have hnm : n = m := by
        rcases List.mem_cons.mp hn with h | h
        · exact h
        · exact absurd h hr
      subst hnm
      unfold markLoop
      rw [markLoop_not_mem hr, if_neg hinf]
      simp

/-- C3: after a successful `AdaptionPromptV2Model.__init__`, every
parameter whose name does not contain the substring `adaption_` has
`requires_grad = False`; and no lifecycle operation (`add_adapter`,
`set_adapter`, `enable_adapter_layers`, `disable_adapter_layers`) nor any
adapted forward pass writes the weight values of the model parameters. -/
theorem base_weights_frozen_and_never_written
    (b : BaseModel) (rg : PName → Bool) (pv : PName → Int) (name : String)
    (cfg : AdaptionPromptV2Config)
    (h : (initModel b rg pv name cfg).2 = none) :
    (∀ nm ∈ ((initModel b rg pv name cfg).1).paramNames,
        ¬ (adaptionSub <:+: nm) → ((initModel b rg pv name cfg).1).reqGrad nm = false) ∧
    (∀ (n : String) (c : AdaptionPromptV2Config) (s : MState),
        ((add_adapter n c s).1).paramVals = s.paramVals) ∧
    (∀ (n : String) (s : MState), ((set_adapter n s).1).paramVals = s.paramVals) ∧
    (∀ s : MState, ((enable_adapter_layers s).1).paramVals = s.paramVals) ∧
    (∀ s : MState, ((disable_adapter_layers s).1).paramVals = s.paramVals) ∧
    (∀ (T P : Type) (TO : TOps T P) (A : AttnState T) (hid : Option T) (oa : Bool),
        ((attnForward TO A hid oa).1).vals = A.vals) ∧
    (∀ (T : Type) (f : (String → Option LChild) → T) (M : MlpState),
        ((mlpForward f M).1).vals = M.vals) := by
  refine ⟨?_, fun n c s => add_adapter_result_paramVals rfl,
      fun n s => set_adapter_result_paramVals rfl,
      fun s => enable_result_paramVals rfl,
      fun s => disable_result_paramVals rfl,
      fun T P TO A hid oa => attnForward_result_vals rfl,
      fun T f M => rfl⟩
  unfold initModel at h ⊢
  revert h
  cases hA : add_adapter name cfg (freshState b rg pv) with
  | mk s1 e =>
    intro h
    cases e with
    | some err => simp at h
    | none =>
      intro nm hmem hinf
      exact markLoop_clears hmem hinf

/-- A small concrete llama-style base model used to instantiate the
hypothesis-bearing theorems: two decoder layer parents (object ids 0
and 1) whose attention submodule is at attribute `sa` and mlp submodule
at attribute `m`. -/
def demoBase : BaseModel :=
  { modelType := "llama",
    moduleNames := ["l0", "l0.sa", "l0.m", "l1", "l1.sa", "l1.m"],
    parentOf := fun nm => if nm = "l0.sa" ∨ nm = "l0.m" then 0 else 1,
    parentPath := fun p => if p = 0 then "l0" else "l1",
    baseAttrs := fun p a =>
      if a = "sa" then some (.orig (2 * p))
      else if a = "m" then some (.orig (2 * p + 1))
      else none,
    baseParamNames := ["l0.sa.q.weight".data, "l1.m.up.weight".data] }

/-- A plain single-adapter configuration for the demo model. -/
def demoCfg : AdaptionPromptV2Config :=
  { attention_module := some "sa", mlp_module := some "m",
    adapter_len := 1, adapter_layers := 1 }

/-- C3 witness: the theorem applied to the concrete demo model. -/
theorem base_weights_frozen_and_never_written_witness :
    (∀ nm ∈ ((initModel demoBase (fun _ => true) (fun _ => 0) "a" demoCfg).1).paramNames,
        ¬ (adaptionSub <:+: nm) →
          ((initModel demoBase (fun _ => true) (fun _ => 0) "a" demoCfg).1).reqGrad nm
            = false) ∧
    (∀ (n : String) (c : AdaptionPromptV2Config) (s : MState),
        ((add_adapter n c s).1).paramVals = s.paramVals) ∧
    (∀ (n : String) (s : MState), ((set_adapter n s).1).paramVals = s.paramVals) ∧
    (∀ s : MState, ((enable_adapter_layers s).1).paramVals = s.paramVals) ∧
    (∀ s : MState, ((disable_adapter_layers s).1).paramVals = s.paramVals) ∧
    (∀ (T P : Type) (TO : TOps T P) (A : AttnState T) (hid : Option T) (oa : Bool),
        ((attnForward TO A hid oa).1).vals = A.vals) ∧
    (∀ (T : Type) (f : (String → Option LChild) → T) (M : MlpState),
        ((mlpForward f M).1).vals = M.vals) :=
  base_weights_frozen_and_never_written demoBase (fun _ => true) (fun _ => 0) "a" demoCfg
    (by decide)

/-! ### Error discipline of set_adapter and add_adapter -/

theorem removeLoop_no_VE {an mn : String} {ps : List Nat} :
    ∀ {acc : List (MVal × MVal)} {s : MState}
      {r : MState × Except PyErr (List (MVal × MVal))},
      removeLoop an mn ps acc s = r → ∀ m, r.2 ≠ .error (.valueError m) := by
  induction ps with
  | nil => intro acc s r h m; cases h; simp [removeLoop]
  | cons p rest ih =>
    intro acc s r h m
    unfold removeLoop at h
    try dsimp only at h
    split at h
    · cases h; simp
    · split at h
      · cases h; simp
      · split at h
        · cases h; simp
        · split at h
          · cases h; simp
          · exact ih h m

theorem remove_no_VE {name : Option String} {s : MState} {r : MState × Option PyErr}
    (h : remove_adapted_modules name s = r) : ∀ m, r.2 ≠ some (.valueError m) := by
  intro m
  unfold remove_adapted_modules at h
  split at h
  · cases h; simp
  · split at h
    · cases h; simp
    · split at h
      · cases h; simp
      · split at h
        · next heq =>
          cases h
          have := removeLoop_no_VE heq m
          simpa using this
        · cases h; simp

theorem setLoop_no_VE {an mn : String} {cached : List (MVal × MVal)} {ps : List Nat} :
    ∀ {i : Nat} {s : MState} {r : MState × Option PyErr},
      setLoop an mn cached ps i s = r → ∀ m, r.2 ≠ some (.valueError m) := by
  induction ps with
  | nil => intro i s r h m; cases h; simp [setLoop]
  | cons p rest ih =>
    intro i s r h m
    unfold setLoop at h
    try dsimp only at h
    split at h
    · cases h; simp
    · exact ih h m

theorem setmods_no_VE {name : Option String} {s : MState} {r : MState × Option PyErr}
    (h : set_adapted_modules name s = r) : ∀ m, r.2 ≠ some (.valueError m) := by
  intro m
  unfold set_adapted_modules at h
  split at h
  · cases h; simp
  · split at h
    · cases h; simp
    · try dsimp only at h
      split at h
      · cases h; simp
      · split at h
        · cases h; simp
        · exact setLoop_no_VE h m

theorem bindOp_no_VE {r : MState × Option PyErr} {k : MState → MState × Option PyErr}
    {out : MState × Option PyErr} (h : bindOp r k = out)
    (h1 : ∀ m, r.2 ≠ some (.valueError m))
    (h2 : ∀ (s' : MState) m, ((k s').2) ≠ some (.valueError m)) :
    ∀ m, out.2 ≠ some (.valueError m) := by
  intro m
  unfold bindOp at h
  split at h
  · next s e =>
    cases h
    have := h1 m
    simpa using this
  · rw [← h]
    exact h2 _ m

theorem prepare_config_error_is_VE {mt : String} {c : AdaptionPromptV2Config}
    {e : PyErr} (h : prepare_config mt c = .error e) : ∃ m, e = .valueError m := by
  unfold prepare_config at h
  split at h
  · cases h
    exact ⟨_, rfl⟩
  · cases h

/-- C10: `set_adapter` raises `ValueError` exactly when the requested
adapter name is not registered, and then leaves the state untouched;
setting the already active adapter is a no-op; `add_adapter` raises
`ValueError` when the name already exists and when the config requests
more adapter layers than attention modules were located. -/
theorem adapter_switch_error_discipline
    (s : MState) (n : String) (c : AdaptionPromptV2Config)
    (hact : Option.all (fun a => (s.configs.lookup a).isSome) s.active = true) :
    ((∃ m, (set_adapter n s).2 = some (.valueError m)) ↔ s.configs.lookup n = none) ∧
    (s.configs.lookup n = none →
      set_adapter n s = (s, some (.valueError "Adapter with name does not exist."))) ∧
    (s.active = some n → set_adapter n s = (s, none)) ∧
    ((s.configs.lookup n).isSome = true →
      ∃ m, (add_adapter n c s).2 = some (.valueError m)) ∧
    ((∀ cfg', prepare_config s.base.modelType c = .ok cfg' →
        (findParents s (cfgAttn cfg')).length < cfg'.adapter_layers) →
      ∃ m, (add_adapter n c s).2 = some (.valueError m)) := by
  have hAct : ∀ a, s.active = some a → (s.configs.lookup a).isSome = true := by
    intro a ha
    rw [ha] at hact
    simpa [Option.all] using hact
  have hNoop : s.active = some n → set_adapter n s = (s, none) := by
    intro h
    unfold set_adapter
    rw [if_pos h]
  have hMissing : s.configs.lookup n = none →
      set_adapter n s = (s, some (.valueError "Adapter with name does not exist.")) := by
    intro h
    have hne : ¬ s.active = some n := by
      intro ha
      have := hAct n ha
      rw [h] at this
      simp at this
    unfold set_adapter
    rw [if_neg hne, if_pos (by simp [h])]
  refine ⟨⟨?_, ?_⟩, hMissing, hNoop, ?_, ?_⟩
  · rintro ⟨m, hm⟩
    by_cases ha : s.active = some n
    · rw [hNoop ha] at hm
      simp at hm
    · by_cases hn : s.configs.lookup n = none
      · exact hn
      · exfalso
        unfold set_adapter at hm
        rw [if_neg ha, if_neg (by simp [Option.isNone_iff_eq_none, hn])] at hm
        split at hm
        · have hb := @bindOp_no_VE (remove_adapted_modules s.active s)
            (fun s1 => bindOp (set_adapted_modules (some n) s1) (fun s2 =>
              ({ s2 with active := some n }, none)))
            (bindOp (remove_adapted_modules s.active s) (fun s1 =>
              bindOp (set_adapted_modules (some n) s1) (fun s2 =>
                ({ s2 with active := some n }, none)))) rfl
            (remove_no_VE rfl) ?_ m
          · exact hb hm
          · intro s' m'
            have hb2 := @bindOp_no_VE (set_adapted_modules (some n) s')
              (fun s2 => ({ s2 with active := some n }, none))
              (bindOp (set_adapted_modules (some n) s') (fun s2 =>
                ({ s2 with active := some n }, none))) rfl
              (setmods_no_VE rfl) (by intro s2 m2; simp) m'
            exact hb2
        · simp at hm
  · intro hn
    rw [hMissing hn]
    exact ⟨_, rfl⟩
  · intro hn
    unfold add_adapter
    cases hp : prepare_config s.base.modelType c with
    | error e =>
      obtain ⟨m, hm⟩ := prepare_config_error_is_VE hp
      exact ⟨m, by rw [hm]⟩
    | ok cfg' =>
      dsimp only
      rw [if_pos hn]
      exact ⟨_, rfl⟩
  · intro hlen
    unfold add_adapter
    cases hp : prepare_config s.base.modelType c with
    | error e =>
      obtain ⟨m, hm⟩ := prepare_config_error_is_VE hp
      exact ⟨m, by rw [hm]⟩
    | ok cfg' =>
      dsimp only
      by_cases hn : (s.configs.lookup n).isSome = true
      · rw [if_pos hn]
        exact ⟨_, rfl⟩
      · rw [if_neg hn, if_pos (hlen cfg' hp)]
        exact ⟨_, rfl⟩

/-- C10 witness: the theorem applied to the state after adding adapter
`a` on the demo model, asking for the unregistered name `zz`. -/
theorem adapter_switch_error_discipline_witness :
    ((∃ m, (set_adapter "zz" ((add_adapter "a" demoCfg
          (freshState demoBase (fun _ => true) (fun _ => 0))).1)).2
        = some (.valueError m)) ↔
      ((add_adapter "a" demoCfg
          (freshState demoBase (fun _ => true) (fun _ => 0))).1).configs.lookup "zz"
        = none) ∧
    (((add_adapter "a" demoCfg
          (freshState demoBase (fun _ => true) (fun _ => 0))).1).configs.lookup "zz"
        = none →
      set_adapter "zz" ((add_adapter "a" demoCfg
          (freshState demoBase (fun _ => true) (fun _ => 0))).1)
        = ((add_adapter "a" demoCfg
            (freshState demoBase (fun _ => true) (fun _ => 0))).1,
           some (.valueError "Adapter with name does not exist."))) ∧
    (((add_adapter "a" demoCfg
          (freshState demoBase (fun _ => true) (fun _ => 0))).1).active = some "zz" →
      set_adapter "zz" ((add_adapter "a" demoCfg
          (freshState demoBase (fun _ => true) (fun _ => 0))).1)
        = ((add_adapter "a" demoCfg
            (freshState demoBase (fun _ => true) (fun _ => 0))).1, none)) ∧
    ((((add_adapter "a" demoCfg
          (freshState demoBase (fun _ => true) (fun _ => 0))).1).configs.lookup
            "zz").isSome = true →
      ∃ m, (add_adapter "zz" demoCfg ((add_adapter "a" demoCfg
          (freshState demoBase (fun _ => true) (fun _ => 0))).1)).2
        = some (.valueError m)) ∧
    ((∀ cfg', prepare_config ((add_adapter "a" demoCfg
          (freshState demoBase (fun _ => true) (fun _ => 0))).1).base.modelType demoCfg
          = .ok cfg' →
        (findParents ((add_adapter "a" demoCfg
            (freshState demoBase (fun _ => true) (fun _ => 0))).1)
            (cfgAttn cfg')).length < cfg'.adapter_layers) →
      ∃ m, (add_adapter "zz" demoCfg ((add_adapter "a" demoCfg
          (freshState demoBase (fun _ => true) (fun _ => 0))).1)).2
        = some (.valueError m)) :=
  adapter_switch_error_discipline
    ((add_adapter "a" demoCfg (freshState demoBase (fun _ => true) (fun _ => 0))).1)
    "zz" demoCfg (by decide)

/-! ### Effect lemmas for the module-swapping loops -/

/-- Equality of all `MState` fields except the attribute graph. -/
structure EqExceptGraph (s s' : MState) : Prop where
  parentsD : s'.parentsD = s.parentsD
  cachedD : s'.cachedD = s.cachedD
  configs : s'.configs = s.configs
  active : s'.active = s.active
  enabled : s'.enabled = s.enabled
  paramNames : s'.paramNames = s.paramNames
  reqGrad : s'.reqGrad = s.reqGrad
  paramVals : s'.paramVals = s.paramVals
  base : s'.base = s.base

theorem EqExceptGraph.selfEq (s : MState) : EqExceptGraph s s :=
  ⟨rfl, rfl, rfl, rfl, rfl, rfl, rfl, rfl, rfl⟩

theorem EqExceptGraph.trans' {s1 s2 s3 : MState} (h1 : EqExceptGraph s1 s2)
    (h2 : EqExceptGraph s2 s3) : EqExceptGraph s1 s3 :=
  ⟨h2.parentsD.trans h1.parentsD, h2.cachedD.trans h1.cachedD,
   h2.configs.trans h1.configs, h2.active.trans h1.active,
   h2.enabled.trans h1.enabled, h2.paramNames.trans h1.paramNames,
   h2.reqGrad.trans h1.reqGrad, h2.paramVals.trans h1.paramVals,
   h2.base.trans h1.base⟩

/-- Equality of all `MState` fields except the attribute graph and the
parameter registry (`paramNames` / `reqGrad`), which module creation
extends. -/
structure EqExceptGraphParams (s s' : MState) : Prop where
  parentsD : s'.parentsD = s.parentsD
  cachedD : s'.cachedD = s.cachedD
  configs : s'.configs = s.configs
  active : s'.active = s.active
  enabled : s'.enabled = s.enabled
  paramVals : s'.paramVals = s.paramVals
  base : s'.base = s.base

theorem EqExceptGraphParams.selfEqP (s : MState) : EqExceptGraphParams s s :=
  ⟨rfl, rfl, rfl, rfl, rfl, rfl, rfl⟩

theorem setattr_graph_self (s : MState) (p : Nat) (a : String) (v : MVal) :
    (setattr' s p a v).graph p a = some v := by
  simp [setattr']

theorem setattr_graph_ne (s : MState) (p : Nat) (a : String) (v : MVal)
    {q : Nat} {b : String} (h : ¬(q = p ∧ b = a)) :
    (setattr' s p a v).graph q b = s.graph q b := by
  simp [setattr', h]


/-- Success and effect of the `_remove_adapted_modules` loop: when every
parent slot holds a wrapper exposing a `model` attribute and the parents
are distinct, the loop succeeds, returns the removed pairs in order,
rewrites each parent slot to the wrapped inner module and leaves every
other slot and every other state field unchanged. -/
theorem removeLoop_ok {an mn : String} (hne : an ≠ mn) {ps : List Nat}
    (wA wM iA iM : Nat → MVal) :
    ∀ {s : MState} (acc : List (MVal × MVal)),
      (∀ p ∈ ps, s.graph p an = some (wA p) ∧ (wA p).modelAttr = some (iA p) ∧
        s.graph p mn = some (wM p) ∧ (wM p).modelAttr = some (iM p)) →
      ps.Nodup →
      (removeLoop an mn ps acc s).2 = .ok (acc ++ ps.map (fun p => (wA p, wM p))) ∧
      EqExceptGraph s (removeLoop an mn ps acc s).1 ∧
      (∀ q b, (q ∉ ps ∨ (b ≠ an ∧ b ≠ mn)) →
        ((removeLoop an mn ps acc s).1).graph q b = s.graph q b) ∧
      (∀ p ∈ ps, ((removeLoop an mn ps acc s).1).graph p an = some (iA p) ∧
        ((removeLoop an mn ps acc s).1).graph p mn = some (iM p)) := by
  induction ps with
  | nil =>
    intro s acc _ _
    exact ⟨by simp [removeLoop], EqExceptGraph.selfEq s, fun q b _ => rfl,
      fun p hp => absurd hp (by simp)⟩
  | cons p rest ih =>
    intro s acc hslots hnodup
    obtain ⟨h1, h2, h3, h4⟩ := hslots p (List.mem_cons_self p rest)
    have hpr : p ∉ rest := (List.nodup_cons.mp hnodup).1
    have hnr : rest.Nodup := (List.nodup_cons.mp hnodup).2
    have hred : removeLoop an mn (p :: rest) acc s
        = removeLoop an mn rest (acc ++ [(wA p, wM p)])
            (setattr' (setattr' s p an (iA p)) p mn (iM p)) := by
      simp only [removeLoop, h1, h2, h3, h4]
    set s2 := setattr' (setattr' s p an (iA p)) p mn (iM p) with hs2
    have hs2frame : ∀ q b, ¬(q = p ∧ (b = an ∨ b = mn)) → s2.graph q b = s.graph q b := by
      intro q b hq
      rw [hs2]
      rw [setattr_graph_ne _ _ _ _ (fun hx => hq ⟨hx.1, Or.inr hx.2⟩)]
      rw [setattr_graph_ne _ _ _ _ (fun hx => hq ⟨hx.1, Or.inl hx.2⟩)]
    have hs2attn : s2.graph p an = some (iA p) := by
      rw [hs2]
      rw [setattr_graph_ne (setattr' s p an (iA p)) p mn (iM p) (q := p) (b := an)
        (fun hx => hne hx.2)]
      exact setattr_graph_self _ _ _ _
    have hs2mlp : s2.graph p mn = some (iM p) := setattr_graph_self _ _ _ _
    have htail : ∀ q ∈ rest, s2.graph q an = some (wA q) ∧ (wA q).modelAttr = some (iA q) ∧
        s2.graph q mn = some (wM q) ∧ (wM q).modelAttr = some (iM q) := by
      intro q hq
      have hqp : q ≠ p := fun e => hpr (e ▸ hq)
      obtain ⟨g1, g2, g3, g4⟩ := hslots q (List.mem_cons_of_mem p hq)
      exact ⟨(hs2frame q an (fun hx => hqp hx.1)).trans g1, g2,
        (hs2frame q mn (fun hx => hqp hx.1)).trans g3, g4⟩
    obtain ⟨i2, ieq, iframe, ieff⟩ := ih (s := s2) (acc ++ [(wA p, wM p)]) htail hnr
    have hs2eq : EqExceptGraph s s2 := ⟨rfl, rfl, rfl, rfl, rfl, rfl, rfl, rfl, rfl⟩
    refine ⟨?_, ?_, ?_, ?_⟩
    · rw [hred, i2]
      simp
    · rw [hred]
      exact hs2eq.trans' ieq
    · intro q b hqb
      rw [hred]
      have hq2 : q ∉ rest ∨ (b ≠ an ∧ b ≠ mn) := by
        rcases hqb with hq | hb
        · exact Or.inl (fun e => hq (List.mem_cons_of_mem p e))
        · exact Or.inr hb
      rw [iframe q b hq2]
      apply hs2frame
      rintro ⟨hqp, hbm⟩
      rcases hqb with hq | hb
      · exact hq (hqp ▸ List.mem_cons_self p rest)
      · rcases hbm with e | e
        · exact hb.1 e
        · exact hb.2 e
    · intro q hq
      rw [hred]
      rcases List.mem_cons.mp hq with e | hqr
      · subst e
        exact ⟨(iframe q an (Or.inl hpr)).trans hs2attn,
          (iframe q mn (Or.inl hpr)).trans hs2mlp⟩
      · exact ieff q hqr

/-- Success and effect of `_create_adapted_modules`: when every targeted
parent slot holds an original submodule and the parents are distinct,
creation succeeds; the parent at `enumerate` index 0 of a multi-modal
config receives only an `AdaptedAttention` (with `add_bias=False`,
`add_scale=False` and the configured modals) and keeps its original mlp,
every other parent receives an `AdaptedAttention` and an `AdaptedMLP`
carrying the configured flags; all other slots are unchanged. -/
theorem createAdaptedModules_ok {adapter : String} {cfg : AdaptionPromptV2Config}
    (hne : cfgAttn cfg ≠ cfgMlp cfg) {ps : List Nat} (ka km : Nat → Nat) :
    ∀ {i : Nat} {s : MState},
      (∀ p ∈ ps, s.graph p (cfgAttn cfg) = some (.orig (ka p)) ∧
        s.graph p (cfgMlp cfg) = some (.orig (km p))) →
      ps.Nodup →
      (createAdaptedModules adapter cfg ps i s).2 = none ∧
      EqExceptGraphParams s (createAdaptedModules adapter cfg ps i s).1 ∧
      (∀ q b, (q ∉ ps ∨ (b ≠ cfgAttn cfg ∧ b ≠ cfgMlp cfg)) →
        ((createAdaptedModules adapter cfg ps i s).1).graph q b = s.graph q b) ∧
      (∀ k, (hk : k < ps.length) →
        ((createAdaptedModules adapter cfg ps i s).1).graph (ps.get ⟨k, hk⟩) (cfgAttn cfg)
          = some (if cfg.multi_modal = true ∧ i + k = 0
              then MVal.adAttn adapter false false (attnModals cfg.supported_modals)
                (.orig (ka (ps.get ⟨k, hk⟩)))
              else MVal.adAttn adapter cfg.add_bias cfg.add_scale ["text"]
                (.orig (ka (ps.get ⟨k, hk⟩)))) ∧
        ((createAdaptedModules adapter cfg ps i s).1).graph (ps.get ⟨k, hk⟩) (cfgMlp cfg)
          = some (if cfg.multi_modal = true ∧ i + k = 0
              then MVal.orig (km (ps.get ⟨k, hk⟩))
              else MVal.adMlp adapter cfg.add_bias cfg.add_scale
                (.orig (km (ps.get ⟨k, hk⟩))))) := by
  induction ps with
  | nil =>
    intro i s _ _
    exact ⟨rfl, EqExceptGraphParams.selfEqP s, fun q b _ => rfl, fun k hk => absurd hk (by simp)⟩
  | cons p rest ih =>
    intro i s hslots hnodup
    obtain ⟨h1, h2⟩ := hslots p (List.mem_cons_self p rest)
    have hpr : p ∉ rest := (List.nodup_cons.mp hnodup).1
    have hnr : rest.Nodup := (List.nodup_cons.mp hnodup).2
    by_cases hc : cfg.multi_modal = true ∧ i = 0
    · -- multi-modal first parent: attention only
      have hred : createAdaptedModules adapter cfg (p :: rest) i s
          = createAdaptedModules adapter cfg rest (i + 1)
              (setattr'
                (registerParams s
                  (adaptionParamNames (s.base.parentPath p ++ "." ++ cfgAttn cfg)
                    (attnModals cfg.supported_modals) false false))
                p (cfgAttn cfg)
                (.adAttn adapter false false (attnModals cfg.supported_modals)
                  (.orig (ka p)))) := by
        simp only [createAdaptedModules, if_pos hc, h1, isAdAttn]
        simp
      set s2 := setattr'
        (registerParams s
          (adaptionParamNames (s.base.parentPath p ++ "." ++ cfgAttn cfg)
            (attnModals cfg.supported_modals) false false))
        p (cfgAttn cfg)
        (.adAttn adapter false false (attnModals cfg.supported_modals) (.orig (ka p)))
        with hs2
      have hs2frame : ∀ q b, ¬(q = p ∧ b = cfgAttn cfg) → s2.graph q b = s.graph q b := by
        intro q b hq
        rw [hs2]
        exact setattr_graph_ne _ _ _ _ hq
      have hs2attn : s2.graph p (cfgAttn cfg)
          = some (.adAttn adapter false false (attnModals cfg.supported_modals)
              (.orig (ka p))) := setattr_graph_self _ _ _ _
      have htail : ∀ q ∈ rest, s2.graph q (cfgAttn cfg) = some (.orig (ka q)) ∧
          s2.graph q (cfgMlp cfg) = some (.orig (km q)) := by
        intro q hq
        have hqp : q ≠ p := fun e => hpr (e ▸ hq)
        obtain ⟨g1, g2⟩ := hslots q (List.mem_cons_of_mem p hq)
        exact ⟨(hs2frame q _ (fun hx => hqp hx.1)).trans g1,
          (hs2frame q _ (fun hx => hqp hx.1)).trans g2⟩
      obtain ⟨i2, ieq, iframe, ieff⟩ := ih (i := i + 1) (s := s2) htail hnr
      refine ⟨by rw [hred]; exact i2, ?_, ?_, ?_⟩
      · rw [hred]
        exact ⟨ieq.parentsD, ieq.cachedD, ieq.configs, ieq.active, ieq.enabled,
          ieq.paramVals, ieq.base⟩
      · intro q b hqb
        rw [hred]
        have hq2 : q ∉ rest ∨ (b ≠ cfgAttn cfg ∧ b ≠ cfgMlp cfg) := by
          rcases hqb with hq | hb
          · exact Or.inl (fun e => hq (List.mem_cons_of_mem p e))
          · exact Or.inr hb
        rw [iframe q b hq2]
        apply hs2frame
        rintro ⟨hqp, hbm⟩
        rcases hqb with hq | hb
        · exact hq (hqp ▸ List.mem_cons_self p rest)
        · exact hb.1 hbm
      · intro k hk
        rw [hred]
        cases k with
        | zero =>
          have hcz : cfg.multi_modal = true ∧ i + 0 = 0 := ⟨hc.1, by omega⟩
          rw [if_pos hcz, if_pos hcz]
          refine ⟨(iframe p _ (Or.inl hpr)).trans hs2attn, ?_⟩
          have := (iframe p _ (Or.inl hpr)).trans
            (hs2frame p (cfgMlp cfg) (fun hx => hne hx.2.symm))
          exact this.trans h2
        | succ k' =>
          have hk' : k' < rest.length := by simpa using hk
          have e1 : ((p :: rest).get ⟨k' + 1, hk⟩) = rest.get ⟨k', hk'⟩ := rfl
          obtain ⟨ia, im⟩ := ieff k' hk'
          rw [e1]
          have hx1 : ¬(cfg.multi_modal = true ∧ i + (k' + 1) = 0) := by omega
          have hx2 : ¬(cfg.multi_modal = true ∧ (i + 1) + k' = 0) := by omega
          rw [if_neg hx1, if_neg hx1]
          rw [if_neg hx2] at ia
          rw [if_neg hx2] at im
          exact ⟨ia, im⟩
    · -- ordinary parent: attention and mlp both wrapped
      obtain ⟨h1', h2'⟩ := hslots p (List.mem_cons_self p rest)
      have hred : createAdaptedModules adapter cfg (p :: rest) i s
          = createAdaptedModules adapter cfg rest (i + 1)
              (setattr'
                (setattr'
                  (registerParams
                    (registerParams s
                      (adaptionParamNames (s.base.parentPath p ++ "." ++ cfgAttn cfg)
                        ["text"] cfg.add_bias cfg.add_scale))
                    (adaptionParamNames (s.base.parentPath p ++ "." ++ cfgMlp cfg)
                      [] cfg.add_bias cfg.add_scale))
                  p (cfgAttn cfg)
                  (.adAttn adapter cfg.add_bias cfg.add_scale ["text"] (.orig (ka p))))
                p (cfgMlp cfg)
                (.adMlp adapter cfg.add_bias cfg.add_scale (.orig (km p)))) := by
        simp only [createAdaptedModules, if_neg hc, h1, h2, isAdAttn, isAdMlp]
        simp
      set s2 := setattr'
        (setattr'
          (registerParams
            (registerParams s
              (adaptionParamNames (s.base.parentPath p ++ "." ++ cfgAttn cfg)
                ["text"] cfg.add_bias cfg.add_scale))
            (adaptionParamNames (s.base.parentPath p ++ "." ++ cfgMlp cfg)
              [] cfg.add_bias cfg.add_scale))
          p (cfgAttn cfg)
          (.adAttn adapter cfg.add_bias cfg.add_scale ["text"] (.orig (ka p))))
        p (cfgMlp cfg)
        (.adMlp adapter cfg.add_bias cfg.add_scale (.orig (km p))) with hs2
      have hs2frame : ∀ q b, ¬(q = p ∧ (b = cfgAttn cfg ∨ b = cfgMlp cfg)) →
          s2.graph q b = s.graph q b := by
        intro q b hq
        rw [hs2]
        rw [setattr_graph_ne _ _ _ _ (fun hx => hq ⟨hx.1, Or.inr hx.2⟩)]
        rw [setattr_graph_ne _ _ _ _ (fun hx => hq ⟨hx.1, Or.inl hx.2⟩)]
        rfl
      have hs2attn : s2.graph p (cfgAttn cfg)
          = some (.adAttn adapter cfg.add_bias cfg.add_scale ["text"] (.orig (ka p))) := by
        rw [hs2]
        rw [setattr_graph_ne _ _ _ _ (q := p) (b := cfgAttn cfg) (fun hx => hne hx.2)]
        exact setattr_graph_self _ _ _ _
      have hs2mlp : s2.graph p (cfgMlp cfg)
          = some (.adMlp adapter cfg.add_bias cfg.add_scale (.orig (km p))) :=
        setattr_graph_self _ _ _ _
      have htail : ∀ q ∈ rest, s2.graph q (cfgAttn cfg) = some (.orig (ka q)) ∧
          s2.graph q (cfgMlp cfg) = some (.orig (km q)) := by
        intro q hq
        have hqp : q ≠ p := fun e => hpr (e ▸ hq)
        obtain ⟨g1, g2⟩ := hslots q (List.mem_cons_of_mem p hq)
        exact ⟨(hs2frame q _ (fun hx => hqp hx.1)).trans g1,
          (hs2frame q _ (fun hx => hqp hx.1)).trans g2⟩
      obtain ⟨i2, ieq, iframe, ieff⟩ := ih (i := i + 1) (s := s2) htail hnr
      refine ⟨by rw [hred]; exact i2, ?_, ?_, ?_⟩
      · rw [hred]
        exact ⟨ieq.parentsD, ieq.cachedD, ieq.configs, ieq.active, ieq.enabled,
          ieq.paramVals, ieq.base⟩
      · intro q b hqb
        rw [hred]
        have hq2 : q ∉ rest ∨ (b ≠ cfgAttn cfg ∧ b ≠ cfgMlp cfg) := by
          rcases hqb with hq | hb
          · exact Or.inl (fun e => hq (List.mem_cons_of_mem p e))
          · exact Or.inr hb
        rw [iframe q b hq2]
        apply hs2frame
        rintro ⟨hqp, hbm⟩
        rcases hqb with hq | hb
        · exact hq (hqp ▸ List.mem_cons_self p rest)
        · rcases hbm with e | e
          · exact hb.1 e
          · exact hb.2 e
      · intro k hk
        rw [hred]
        cases k with
        | zero =>
          have hcz : ¬(cfg.multi_modal = true ∧ i + 0 = 0) := by
            rw [Nat.add_zero]
            exact hc
          rw [if_neg hcz, if_neg hcz]
          exact ⟨(iframe p _ (Or.inl hpr)).trans hs2attn,
            (iframe p _ (Or.inl hpr)).trans hs2mlp⟩
        | succ k' =>
          have hk' : k' < rest.length := by simpa using hk
          have e1 : ((p :: rest).get ⟨k' + 1, hk⟩) = rest.get ⟨k', hk'⟩ := rfl
          obtain ⟨ia, im⟩ := ieff k' hk'
          rw [e1]
          have hx1 : ¬(cfg.multi_modal = true ∧ i + (k' + 1) = 0) := by omega
          have hx2 : ¬(cfg.multi_modal = true ∧ (i + 1) + k' = 0) := by omega
          rw [if_neg hx1, if_neg hx1]
          rw [if_neg hx2] at ia
          rw [if_neg hx2] at im
          exact ⟨ia, im⟩

/-- Success and effect of the `_set_adapted_modules` loop: when the cache
holds an entry for every parent index and the parents are distinct, the
loop succeeds and installs `cached[i+k]` on the k-th parent, leaving all
other slots and fields unchanged. -/
theorem setLoop_ok {an mn : String} (hne : an ≠ mn) {cached : List (MVal × MVal)}
    {ps : List Nat} :
    ∀ {i : Nat} {s : MState},
      (∀ k, k < ps.length → i + k < cached.length) →
      ps.Nodup →
      (setLoop an mn cached ps i s).2 = none ∧
      EqExceptGraph s (setLoop an mn cached ps i s).1 ∧
      (∀ q b, (q ∉ ps ∨ (b ≠ an ∧ b ≠ mn)) →
        ((setLoop an mn cached ps i s).1).graph q b = s.graph q b) ∧
      (∀ k, (hk : k < ps.length) →
        ((setLoop an mn cached ps i s).1).graph (ps.get ⟨k, hk⟩) an
          = (cached[i + k]?).map Prod.fst ∧
        ((setLoop an mn cached ps i s).1).graph (ps.get ⟨k, hk⟩) mn
          = (cached[i + k]?).map Prod.snd) := by
  induction ps with
  | nil =>
    intro i s _ _
    exact ⟨rfl, EqExceptGraph.selfEq s, fun q b _ => rfl, fun k hk => absurd hk (by simp)⟩
  | cons p rest ih =>
    intro i s hlen hnodup
    have hpr : p ∉ rest := (List.nodup_cons.mp hnodup).1
    have hnr : rest.Nodup := (List.nodup_cons.mp hnodup).2
    have hi : i < cached.length := by
      have := hlen 0 (by simp)
      omega
    have hci : cached[i]? = some cached[i] := List.getElem?_eq_getElem hi
    have hred : setLoop an mn cached (p :: rest) i s
        = setLoop an mn cached rest (i + 1)
            (setattr' (setattr' s p an (cached[i]).1) p mn (cached[i]).2) := by
      simp only [setLoop, hci]
    set s2 := setattr' (setattr' s p an (cached[i]).1) p mn (cached[i]).2 with hs2
    have hs2frame : ∀ q b, ¬(q = p ∧ (b = an ∨ b = mn)) → s2.graph q b = s.graph q b := by
      intro q b hq
      rw [hs2]
      rw [setattr_graph_ne _ _ _ _ (fun hx => hq ⟨hx.1, Or.inr hx.2⟩)]
      rw [setattr_graph_ne _ _ _ _ (fun hx => hq ⟨hx.1, Or.inl hx.2⟩)]
    have hs2attn : s2.graph p an = some (cached[i]).1 := by
      rw [hs2]
      rw [setattr_graph_ne _ _ _ _ (q := p) (b := an) (fun hx => hne hx.2)]
      exact setattr_graph_self _ _ _ _
    have hs2mlp : s2.graph p mn = some (cached[i]).2 := setattr_graph_self _ _ _ _
    have hlen' : ∀ k, k < rest.length → (i + 1) + k < cached.length := by
      intro k hk
      have := hlen (k + 1) (by simpa using Nat.succ_lt_succ hk)
      omega
    obtain ⟨i2, ieq, iframe, ieff⟩ := ih (i := i + 1) (s := s2) hlen' hnr
    have hs2eq : EqExceptGraph s s2 := ⟨rfl, rfl, rfl, rfl, rfl, rfl, rfl, rfl, rfl⟩
    refine ⟨by rw [hred]; exact i2, by rw [hred]; exact hs2eq.trans' ieq, ?_, ?_⟩
    · intro q b hqb
      rw [hred]
      have hq2 : q ∉ rest ∨ (b ≠ an ∧ b ≠ mn) := by
        rcases hqb with hq | hb
        · exact Or.inl (fun e => hq (List.mem_cons_of_mem p e))
        · exact Or.inr hb
      rw [iframe q b hq2]
      apply hs2frame
      rintro ⟨hqp, hbm⟩
      rcases hqb with hq | hb
      · exact hq (hqp ▸ List.mem_cons_self p rest)
      · rcases hbm with e | e
        · exact hb.1 e
        · exact hb.2 e
    · intro k hk
      rw [hred]
      cases k with
      | zero =>
        simp only [Nat.add_zero, hci, Option.map_some']
        exact ⟨(iframe p _ (Or.inl hpr)).trans hs2attn,
          (iframe p _ (Or.inl hpr)).trans hs2mlp⟩
      | succ k' =>
        have hk' : k' < rest.length := by simpa using hk
        have e1 : ((p :: rest).get ⟨k' + 1, hk⟩) = rest.get ⟨k', hk'⟩ := rfl
        have e2 : i + (k' + 1) = (i + 1) + k' := by omega
        rw [e1, e2]
        exact ieff k' hk'

/-! ### Dictionary lemmas and composite swap operations -/

theorem alSet_lookup_self (k : String) (v : α) (d : List (String × α)) :
    (alSet k v d).lookup k = some v := by
  unfold alSet
  split
  · next hs =>
    induction d with
    | nil => simp at hs
    | cons hd tl ih =>
      obtain ⟨k1, v1⟩ := hd
      by_cases hk : k1 = k
      · subst hk
        simp [List.lookup_cons]
      · have h1 : (k == k1) = false := beq_eq_false_iff_ne.mpr (fun e => hk e.symm)
        simp only [List.lookup_cons, h1] at hs
        simp only [List.map_cons, if_neg hk, List.lookup_cons, h1]
        exact ih hs
  · next hs =>
    induction d with
    | nil => simp [List.lookup_cons]
    | cons hd tl ih =>
      obtain ⟨k1, v1⟩ := hd
      rw [List.cons_append]
      by_cases hk : (k == k1) = true
      · exfalso
        apply hs
        simp [List.lookup_cons, hk]
      · have h1 : (k == k1) = false := by
          cases h2 : (k == k1)
          · rfl
          · exact absurd h2 hk
        simp only [List.lookup_cons, h1]
        apply ih
        intro htl
        apply hs
        simp only [List.lookup_cons, h1]
        exact htl

theorem alSet_lookup_ne (k : String) (v : α) (d : List (String × α)) {j : String}
    (h : j ≠ k) : (alSet k v d).lookup j = d.lookup j := by
  have hbeq : (j == k) = false := beq_eq_false_iff_ne.mpr h
  have hmap : ∀ (l : List (String × α)),
      List.lookup j (l.map (fun p => if p.1 = k then (k, v) else p)) = List.lookup j l := by
    intro l
    induction l with
    | nil => rfl
    | cons hd tl ih =>
      obtain ⟨k1, v1⟩ := hd
      by_cases hk : k1 = k
      · subst hk
        simp [List.lookup_cons, hbeq, ih]
      · simp only [List.map_cons, if_neg hk, List.lookup_cons]
        cases hjk : (j == k1)
        · exact ih
        · rfl
  have happ : ∀ (l : List (String × α)),
      List.lookup j (l ++ [(k, v)]) = List.lookup j l := by
    intro l
    induction l with
    | nil => simp [List.lookup_cons, hbeq]
    | cons hd tl ih =>
      obtain ⟨k1, v1⟩ := hd
      rw [List.cons_append]
      simp only [List.lookup_cons]
      cases hjk : (j == k1)
      · exact ih
      · rfl
  unfold alSet
  split
  · exact hmap d
  · exact happ d

theorem alErase_lookup_self (k : String) (d : List (String × α)) :
    (alErase k d).lookup k = none := by
  have haux : ∀ (l : List (String × α)),
      List.lookup k (l.filter (fun p => p.1 ≠ k)) = none := by
    intro l
    induction l with
    | nil => rfl
    | cons hd tl ih =>
      obtain ⟨k1, v1⟩ := hd
      rw [List.filter_cons]
      by_cases hk : k1 = k
      · rw [if_neg (by simp [hk])]
        exact ih
      · rw [if_pos (by simp [hk])]
        have h1 : (k == k1) = false := beq_eq_false_iff_ne.mpr (fun e => hk e.symm)
        simp only [List.lookup_cons, h1]
        exact ih
  exact haux d

theorem alErase_lookup_ne (k : String) (d : List (String × α)) {j : String}
    (h : j ≠ k) : (alErase k d).lookup j = d.lookup j := by
  have haux : ∀ (l : List (String × α)),
      List.lookup j (l.filter (fun p => p.1 ≠ k)) = List.lookup j l := by
    intro l
    induction l with
    | nil => rfl
    | cons hd tl ih =>
      obtain ⟨k1, v1⟩ := hd
      rw [List.filter_cons]
      by_cases hk : k1 = k
      · rw [if_neg (by simp [hk])]
        have h1 : (j == k1) = false := by
          subst hk
          exact beq_eq_false_iff_ne.mpr h
        simp only [List.lookup_cons, h1]
        exact ih
      · rw [if_pos (by simp [hk])]
        simp only [List.lookup_cons]
        cases hjk : (j == k1)
        · exact ih
        · rfl
  exact haux d

theorem alErase_alSet_of_lookup_none (k : String) (v : α) (d : List (String × α))
    (h : d.lookup k = none) : alErase k (alSet k v d) = d := by
  have hfilter : ∀ (l : List (String × α)), l.lookup k = none →
      l.filter (fun p => p.1 ≠ k) = l := by
    intro l
    induction l with
    | nil => intro _; rfl
    | cons hd tl ih =>
      intro hl
      obtain ⟨k1, v1⟩ := hd
      simp only [List.lookup_cons] at hl
      by_cases hk : (k == k1) = true
      · rw [hk] at hl
        cases hl
      · have h1 : (k == k1) = false := by
          cases h2 : (k == k1)
          · rfl
          · exact absurd h2 hk
        rw [h1] at hl
        rw [List.filter_cons]
        have h2 : k1 ≠ k := by
          simp only [beq_eq_false_iff_ne] at h1
          exact fun e => h1 e.symm
        rw [if_pos (by simp [h2])]
        rw [ih hl]
  unfold alSet alErase
  rw [h]
  simp only [Option.isSome_none, Bool.false_eq_true, if_false]
  rw [List.filter_append, hfilter d h]
  simp

/-- Field-wise extensionality for machine states. -/
theorem MState.ext' {s s' : MState} (hb : s.base = s'.base) (hg : s.graph = s'.graph)
    (hp : s.parentsD = s'.parentsD) (hc : s.cachedD = s'.cachedD)
    (hcf : s.configs = s'.configs) (ha : s.active = s'.active)
    (he : s.enabled = s'.enabled) (hpn : s.paramNames = s'.paramNames)
    (hrg : s.reqGrad = s'.reqGrad) (hpv : s.paramVals = s'.paramVals) : s = s' := by
  cases s
  cases s'
  simp only at hb hg hp hc hcf ha he hpn hrg hpv
  subst hb hg hp hc hcf ha he hpn hrg hpv
  rfl

/-- Effect of `_remove_adapted_modules` on a well-formed installed
adapter: the Adapted* pairs are moved into the cache in parent order and
the parent slots are rewritten to the wrapped `model` modules. -/
theorem remove_adapted_modules_ok {a : String} {s : MState}
    {cfg : AdaptionPromptV2Config} {ps : List Nat}
    (hcfg : s.configs.lookup a = some cfg)
    (hps : s.parentsD.lookup a = some ps)
    (hne : cfgAttn cfg ≠ cfgMlp cfg)
    (wA wM iA iM : Nat → MVal)
    (hslots : ∀ p ∈ ps, s.graph p (cfgAttn cfg) = some (wA p) ∧
      (wA p).modelAttr = some (iA p) ∧
      s.graph p (cfgMlp cfg) = some (wM p) ∧ (wM p).modelAttr = some (iM p))
    (hnodup : ps.Nodup) :
    (remove_adapted_modules (some a) s).2 = none ∧
    ((remove_adapted_modules (some a) s).1).cachedD
      = alSet a (ps.map (fun p => (wA p, wM p))) s.cachedD ∧
    ((remove_adapted_modules (some a) s).1).parentsD = s.parentsD ∧
    ((remove_adapted_modules (some a) s).1).configs = s.configs ∧
    ((remove_adapted_modules (some a) s).1).active = s.active ∧
    ((remove_adapted_modules (some a) s).1).enabled = s.enabled ∧
    ((remove_adapted_modules (some a) s).1).paramNames = s.paramNames ∧
    ((remove_adapted_modules (some a) s).1).reqGrad = s.reqGrad ∧
    ((remove_adapted_modules (some a) s).1).paramVals = s.paramVals ∧
    ((remove_adapted_modules (some a) s).1).base = s.base ∧
    (∀ q b, (q ∉ ps ∨ (b ≠ cfgAttn cfg ∧ b ≠ cfgMlp cfg)) →
      ((remove_adapted_modules (some a) s).1).graph q b = s.graph q b) ∧
    (∀ p ∈ ps, ((remove_adapted_modules (some a) s).1).graph p (cfgAttn cfg)
        = some (iA p) ∧
      ((remove_adapted_modules (some a) s).1).graph p (cfgMlp cfg) = some (iM p)) := by
  obtain ⟨h2, heq, hframe, heff⟩ := removeLoop_ok hne wA wM iA iM (s := s) [] hslots hnodup
  cases hr : removeLoop (cfgAttn cfg) (cfgMlp cfg) ps [] s with
  | mk s' res =>
    rw [hr] at h2 heq hframe heff
    dsimp only at h2
    subst h2
    have hred : remove_adapted_modules (some a) s
        = ({ s' with cachedD := alSet a ([] ++ ps.map (fun p => (wA p, wM p))) s'.cachedD },
           none) := by
      simp only [remove_adapted_modules, hcfg, hps, hr]
    rw [hred]
    simp only [List.nil_append]
    refine ⟨by trivial, ?_, heq.parentsD, heq.configs, heq.active, heq.enabled,
      heq.paramNames, heq.reqGrad, heq.paramVals, heq.base, hframe, heff⟩
    rw [heq.cachedD]

/-- Effect of `_set_adapted_modules` on a well-formed cached adapter: the
cache entry is consumed and its module pairs are installed on the
adapter parents in order. -/
theorem set_adapted_modules_ok {a : String} {s : MState}
    {cfg : AdaptionPromptV2Config} {ps : List Nat} {cached : List (MVal × MVal)}
    (hcache : s.cachedD.lookup a = some cached)
    (hcfg : s.configs.lookup a = some cfg)
    (hps : s.parentsD.lookup a = some ps)
    (hne : cfgAttn cfg ≠ cfgMlp cfg)
    (hlen : ps.length ≤ cached.length)
    (hnodup : ps.Nodup) :
    (set_adapted_modules (some a) s).2 = none ∧
    ((set_adapted_modules (some a) s).1).cachedD = alErase a s.cachedD ∧
    ((set_adapted_modules (some a) s).1).parentsD = s.parentsD ∧
    ((set_adapted_modules (some a) s).1).configs = s.configs ∧
    ((set_adapted_modules (some a) s).1).active = s.active ∧
    ((set_adapted_modules (some a) s).1).enabled = s.enabled ∧
    ((set_adapted_modules (some a) s).1).paramNames = s.paramNames ∧
    ((set_adapted_modules (some a) s).1).reqGrad = s.reqGrad ∧
    ((set_adapted_modules (some a) s).1).paramVals = s.paramVals ∧
    ((set_adapted_modules (some a) s).1).base = s.base ∧
    (∀ q b, (q ∉ ps ∨ (b ≠ cfgAttn cfg ∧ b ≠ cfgMlp cfg)) →
      ((set_adapted_modules (some a) s).1).graph q b = s.graph q b) ∧
    (∀ k, (hk : k < ps.length) →
      ((set_adapted_modules (some a) s).1).graph (ps.get ⟨k, hk⟩) (cfgAttn cfg)
        = (cached[k]?).map Prod.fst ∧
      ((set_adapted_modules (some a) s).1).graph (ps.get ⟨k, hk⟩) (cfgMlp cfg)
        = (cached[k]?).map Prod.snd) := by
  have hlen' : ∀ k, k < ps.length → 0 + k < cached.length := by
    intro k hk
    omega
  obtain ⟨h2, heq, hframe, heff⟩ := @setLoop_ok (cfgAttn cfg) (cfgMlp cfg) hne cached ps
    0 { s with cachedD := alErase a s.cachedD } hlen' hnodup
  have hred : set_adapted_modules (some a) s
      = setLoop (cfgAttn cfg) (cfgMlp cfg) cached ps 0
          { s with cachedD := alErase a s.cachedD } := by
    simp only [set_adapted_modules, hcache, hcfg, hps]
  rw [hred]
  refine ⟨h2, by rw [heq.cachedD], heq.parentsD, heq.configs, heq.active, heq.enabled,
    heq.paramNames, heq.reqGrad, heq.paramVals, heq.base, hframe, ?_⟩
  intro k hk
  obtain ⟨e1, e2⟩ := heff k hk
  rw [Nat.zero_add] at e1 e2
  exact ⟨e1, e2⟩

theorem bindOp_none (s : MState) (k : MState → MState × Option PyErr) :
    bindOp (s, none) k = k s := rfl

/-- Effect of a successful `add_adapter` on a state with no active
adapter (the `__init__` scenario): the discovered parent list is
recorded under the adapter name, the adapter becomes active, and each
kept parent is wrapped according to `_create_adapted_modules`;
everything else is untouched. -/
theorem add_adapter_ok
    {s0 : MState} {name : String} {cfg0 cfg : AdaptionPromptV2Config} {firstP : Nat}
    (hprep : prepare_config s0.base.modelType cfg0 = .ok cfg)
    (hname : s0.configs.lookup name = none)
    (hactive : s0.active = none)
    (henabled : s0.enabled = true)
    (hinfer : cfg.inference_mode = false)
    (hne : cfgAttn cfg ≠ cfgMlp cfg)
    (hhead : (findParents s0 (cfgAttn cfg)).head? = some firstP)
    (hlenOK : ¬ (findParents s0 (cfgAttn cfg)).length < cfg.adapter_layers)
    (ka km : Nat → Nat)
    (hslots : ∀ p ∈ addKept (findParents s0 (cfgAttn cfg)) firstP cfg,
      s0.graph p (cfgAttn cfg) = some (.orig (ka p)) ∧
      s0.graph p (cfgMlp cfg) = some (.orig (km p)))
    (hnodup : (addKept (findParents s0 (cfgAttn cfg)) firstP cfg).Nodup) :
    (add_adapter name cfg0 s0).2 = none ∧
    ((add_adapter name cfg0 s0).1).parentsD
      = alSet name (addKept (findParents s0 (cfgAttn cfg)) firstP cfg) s0.parentsD ∧
    ((add_adapter name cfg0 s0).1).configs = alSet name cfg s0.configs ∧
    ((add_adapter name cfg0 s0).1).active = some name ∧
    ((add_adapter name cfg0 s0).1).enabled = true ∧
    ((add_adapter name cfg0 s0).1).cachedD = s0.cachedD ∧
    ((add_adapter name cfg0 s0).1).paramVals = s0.paramVals ∧
    ((add_adapter name cfg0 s0).1).base = s0.base ∧
    (∀ q b, (q ∉ addKept (findParents s0 (cfgAttn cfg)) firstP cfg ∨
        (b ≠ cfgAttn cfg ∧ b ≠ cfgMlp cfg)) →
      ((add_adapter name cfg0 s0).1).graph q b = s0.graph q b) ∧
    (∀ k, (hk : k < (addKept (findParents s0 (cfgAttn cfg)) firstP cfg).length) →
      ((add_adapter name cfg0 s0).1).graph
          ((addKept (findParents s0 (cfgAttn cfg)) firstP cfg).get ⟨k, hk⟩) (cfgAttn cfg)
        = some (if cfg.multi_modal = true ∧ k = 0
            then MVal.adAttn name false false (attnModals cfg.supported_modals)
              (.orig (ka ((addKept (findParents s0 (cfgAttn cfg)) firstP cfg).get ⟨k, hk⟩)))
            else MVal.adAttn name cfg.add_bias cfg.add_scale ["text"]
              (.orig (ka ((addKept (findParents s0 (cfgAttn cfg)) firstP cfg).get ⟨k, hk⟩)))) ∧
      ((add_adapter name cfg0 s0).1).graph
          ((addKept (findParents s0 (cfgAttn cfg)) firstP cfg).get ⟨k, hk⟩) (cfgMlp cfg)
        = some (if cfg.multi_modal = true ∧ k = 0
            then MVal.orig (km ((addKept (findParents s0 (cfgAttn cfg)) firstP cfg).get ⟨k, hk⟩))
            else MVal.adMlp name cfg.add_bias cfg.add_scale
              (.orig (km ((addKept (findParents s0 (cfgAttn cfg)) firstP cfg).get ⟨k, hk⟩))))) := by
  have e1 : ¬ ((s0.configs.lookup name).isSome = true) := by
    rw [hname]
    simp
  set kept := addKept (findParents s0 (cfgAttn cfg)) firstP cfg with hkept
  have hred : add_adapter name cfg0 s0
      = addInstall name cfg kept { s0 with parentsD := alSet name kept s0.parentsD } := by
    unfold add_adapter
    rw [hprep]
    try dsimp only
    rw [if_neg e1, if_neg hlenOK, hhead]
  set s3 : MState := { s0 with
    parentsD := alSet name kept s0.parentsD,
    active := some name,
    configs := alSet name cfg s0.configs } with hs3
  have hslots3 : ∀ p ∈ kept, s3.graph p (cfgAttn cfg) = some (.orig (ka p)) ∧
      s3.graph p (cfgMlp cfg) = some (.orig (km p)) := hslots
  obtain ⟨c2, ceq, cframe, ceff⟩ :=
    @createAdaptedModules_ok name cfg hne kept ka km 0 s3 hslots3 hnodup
  cases hcr : createAdaptedModules name cfg kept 0 s3 with
  | mk s4 res =>
    rw [hcr] at c2 ceq cframe ceff
    dsimp only at c2
    subst c2
    have hinst : addInstall name cfg kept
        { s0 with parentsD := alSet name kept s0.parentsD } = (s4, none) := by
      unfold addInstall
      rw [if_neg (by simp [hactive])]
      rw [bindOp_none]
      try dsimp only
      rw [hcr]
      rw [bindOp_none]
      try dsimp only
      rw [if_neg (by rw [ceq.enabled]; simp [henabled])]
      rw [bindOp_none]
      try dsimp only
      rw [if_neg (by simp [hinfer])]
    rw [hred, hinst]
    refine ⟨rfl, ?_, ?_, ?_, ?_, ?_, ?_, ?_, ?_, ?_⟩
    · rw [ceq.parentsD]
    · rw [ceq.configs]
    · rw [ceq.active]
    · rw [ceq.enabled]
      exact henabled
    · rw [ceq.cachedD]
    · rw [ceq.paramVals]
    · rw [ceq.base]
    · intro q b hqb
      exact cframe q b hqb
    · intro k hk
      obtain ⟨ea, em⟩ := ceff k hk
      rw [Nat.zero_add] at ea em
      exact ⟨ea, em⟩

/-- A demo config requesting `adapter_layers = 0`. -/
def zeroLayerCfg : AdaptionPromptV2Config :=
  { attention_module := some "sa", mlp_module := some "m",
    adapter_len := 1, adapter_layers := 0 }

/-- C4 counterexample: with `adapter_layers = 0` the Python slice
`parents[-0:]` is `parents[0:]`, so `add_adapter` keeps ALL located
parents instead of the last zero of them: on the two-layer demo model the
recorded parent list is `[0, 1]`, not `[]`. -/
theorem add_adapter_layers_zero_keeps_all :
    zeroLayerCfg.adapter_layers = 0 ∧
    (add_adapter "a" zeroLayerCfg (freshState demoBase (fun _ => true) (fun _ => 0))).2
      = none ∧
    ((add_adapter "a" zeroLayerCfg
        (freshState demoBase (fun _ => true) (fun _ => 0))).1).parentsD.lookup "a"
      = some [0, 1] ∧
    ¬ ((0 : Nat) :: [1]).length = zeroLayerCfg.adapter_layers := by
  refine ⟨rfl, ?_, ?_, by decide⟩
  · decide
  · decide

/-- C4 (amended to `adapter_layers ≥ 1`): `add_adapter` collects the
parents of the submodules whose qualified name ends with the configured
attention module name in `named_modules` order, keeps the last
`adapter_layers` of them, prepends the first parent when the config is
multi-modal and it is not already kept, records that list under the
adapter name, and wraps each kept parent: the attention slot always
receives an `AdaptedAttention` whose `model` is the original submodule,
and the mlp slot receives an `AdaptedMLP` except on the multi-modal first
parent, which keeps its original mlp. -/
theorem add_adapter_targets_last_layers
    {s0 : MState} {name : String} {cfg0 cfg : AdaptionPromptV2Config} {firstP : Nat}
    (hprep : prepare_config s0.base.modelType cfg0 = .ok cfg)
    (hname : s0.configs.lookup name = none)
    (hactive : s0.active = none)
    (henabled : s0.enabled = true)
    (hinfer : cfg.inference_mode = false)
    (hne : cfgAttn cfg ≠ cfgMlp cfg)
    (hlayers : 1 ≤ cfg.adapter_layers)
    (hhead : (findParents s0 (cfgAttn cfg)).head? = some firstP)
    (hlenOK : ¬ (findParents s0 (cfgAttn cfg)).length < cfg.adapter_layers)
    (ka km : Nat → Nat)
    (hslots : ∀ p ∈ addKept (findParents s0 (cfgAttn cfg)) firstP cfg,
      s0.graph p (cfgAttn cfg) = some (.orig (ka p)) ∧
      s0.graph p (cfgMlp cfg) = some (.orig (km p)))
    (hnodup : (addKept (findParents s0 (cfgAttn cfg)) firstP cfg).Nodup) :
    findParents s0 (cfgAttn cfg)
      = (s0.base.moduleNames.filter (fun nm => pyEndsWith nm (cfgAttn cfg))).map
          s0.base.parentOf ∧
    addKept (findParents s0 (cfgAttn cfg)) firstP cfg
      = (if cfg.multi_modal = true ∧
            firstP ∉ (findParents s0 (cfgAttn cfg)).drop
              ((findParents s0 (cfgAttn cfg)).length - cfg.adapter_layers)
         then firstP :: (findParents s0 (cfgAttn cfg)).drop
              ((findParents s0 (cfgAttn cfg)).length - cfg.adapter_layers)
         else (findParents s0 (cfgAttn cfg)).drop
              ((findParents s0 (cfgAttn cfg)).length - cfg.adapter_layers)) ∧
    (add_adapter name cfg0 s0).2 = none ∧
    ((add_adapter name cfg0 s0).1).parentsD.lookup name
      = some (addKept (findParents s0 (cfgAttn cfg)) firstP cfg) ∧
    (∀ q b, (q ∉ addKept (findParents s0 (cfgAttn cfg)) firstP cfg ∨
        (b ≠ cfgAttn cfg ∧ b ≠ cfgMlp cfg)) →
      ((add_adapter name cfg0 s0).1).graph q b = s0.graph q b) ∧
    (∀ k, (hk : k < (addKept (findParents s0 (cfgAttn cfg)) firstP cfg).length) →
      ((add_adapter name cfg0 s0).1).graph
          ((addKept (findParents s0 (cfgAttn cfg)) firstP cfg).get ⟨k, hk⟩) (cfgAttn cfg)
        = some (if cfg.multi_modal = true ∧ k = 0
            then MVal.adAttn name false false (attnModals cfg.supported_modals)
              (.orig (ka ((addKept (findParents s0 (cfgAttn cfg)) firstP cfg).get ⟨k, hk⟩)))
            else MVal.adAttn name cfg.add_bias cfg.add_scale ["text"]
              (.orig (ka ((addKept (findParents s0 (cfgAttn cfg)) firstP cfg).get ⟨k, hk⟩)))) ∧
      ((add_adapter name cfg0 s0).1).graph
          ((addKept (findParents s0 (cfgAttn cfg)) firstP cfg).get ⟨k, hk⟩) (cfgMlp cfg)
        = some (if cfg.multi_modal = true ∧ k = 0
            then MVal.orig (km ((addKept (findParents s0 (cfgAttn cfg)) firstP cfg).get ⟨k, hk⟩))
            else MVal.adMlp name cfg.add_bias cfg.add_scale
              (.orig (km ((addKept (findParents s0 (cfgAttn cfg)) firstP cfg).get ⟨k, hk⟩))))) := by
  obtain ⟨a2, apar, acfgs, aact, aen, acache, apv, abase, aframe, aeff⟩ :=
    add_adapter_ok hprep hname hactive henabled hinfer hne hhead hlenOK ka km hslots hnodup
  have hkp : keptParents (findParents s0 (cfgAttn cfg)) cfg.adapter_layers
      = (findParents s0 (cfgAttn cfg)).drop
          ((findParents s0 (cfgAttn cfg)).length - cfg.adapter_layers) := by
    unfold keptParents
    rw [if_neg (by omega)]
  refine ⟨rfl, ?_, a2, ?_, aframe, aeff⟩
  · unfold addKept
    rw [hkp]
  · rw [apar]
    exact alSet_lookup_self _ _ _

/-- C4 witness: the amended theorem applied to the demo model. -/
theorem add_adapter_targets_last_layers_witness :
    findParents (freshState demoBase (fun _ => true) (fun _ => 0)) (cfgAttn demoCfg)
      = ((freshState demoBase (fun _ => true)
            (fun _ => 0)).base.moduleNames.filter
          (fun nm => pyEndsWith nm (cfgAttn demoCfg))).map
          (freshState demoBase (fun _ => true) (fun _ => 0)).base.parentOf ∧
    addKept (findParents (freshState demoBase (fun _ => true) (fun _ => 0))
        (cfgAttn demoCfg)) 0 demoCfg
      = (if demoCfg.multi_modal = true ∧
            0 ∉ (findParents (freshState demoBase (fun _ => true) (fun _ => 0))
                (cfgAttn demoCfg)).drop
              ((findParents (freshState demoBase (fun _ => true) (fun _ => 0))
                  (cfgAttn demoCfg)).length - demoCfg.adapter_layers)
         then 0 :: (findParents (freshState demoBase (fun _ => true) (fun _ => 0))
                (cfgAttn demoCfg)).drop
              ((findParents (freshState demoBase (fun _ => true) (fun _ => 0))
                  (cfgAttn demoCfg)).length - demoCfg.adapter_layers)
         else (findParents (freshState demoBase (fun _ => true) (fun _ => 0))
                (cfgAttn demoCfg)).drop
              ((findParents (freshState demoBase (fun _ => true) (fun _ => 0))
                  (cfgAttn demoCfg)).length - demoCfg.adapter_layers)) ∧
    (add_adapter "a" demoCfg (freshState demoBase (fun _ => true) (fun _ => 0))).2 = none ∧
    ((add_adapter "a" demoCfg
        (freshState demoBase (fun _ => true) (fun _ => 0))).1).parentsD.lookup "a"
      = some (addKept (findParents (freshState demoBase (fun _ => true) (fun _ => 0))
          (cfgAttn demoCfg)) 0 demoCfg) ∧
    (∀ q b, (q ∉ addKept (findParents (freshState demoBase (fun _ => true) (fun _ => 0))
          (cfgAttn demoCfg)) 0 demoCfg ∨
        (b ≠ cfgAttn demoCfg ∧ b ≠ cfgMlp demoCfg)) →
      ((add_adapter "a" demoCfg (freshState demoBase (fun _ => true) (fun _ => 0))).1).graph
          q b
        = (freshState demoBase (fun _ => true) (fun _ => 0)).graph q b) ∧
    (∀ k, (hk : k < (addKept (findParents (freshState demoBase (fun _ => true) (fun _ => 0))
          (cfgAttn demoCfg)) 0 demoCfg).length) →
      ((add_adapter "a" demoCfg (freshState demoBase (fun _ => true) (fun _ => 0))).1).graph
          ((addKept (findParents (freshState demoBase (fun _ => true) (fun _ => 0))
              (cfgAttn demoCfg)) 0 demoCfg).get ⟨k, hk⟩) (cfgAttn demoCfg)
        = some (if demoCfg.multi_modal = true ∧ k = 0
            then MVal.adAttn "a" false false (attnModals demoCfg.supported_modals)
              (.orig (2 * ((addKept (findParents (freshState demoBase (fun _ => true)
                  (fun _ => 0)) (cfgAttn demoCfg)) 0 demoCfg).get ⟨k, hk⟩)))
            else MVal.adAttn "a" demoCfg.add_bias demoCfg.add_scale ["text"]
              (.orig (2 * ((addKept (findParents (freshState demoBase (fun _ => true)
                  (fun _ => 0)) (cfgAttn demoCfg)) 0 demoCfg).get ⟨k, hk⟩)))) ∧
      ((add_adapter "a" demoCfg (freshState demoBase (fun _ => true) (fun _ => 0))).1).graph
          ((addKept (findParents (freshState demoBase (fun _ => true) (fun _ => 0))
              (cfgAttn demoCfg)) 0 demoCfg).get ⟨k, hk⟩) (cfgMlp demoCfg)
        = some (if demoCfg.multi_modal = true ∧ k = 0
            then MVal.orig (2 * ((addKept (findParents (freshState demoBase (fun _ => true)
                (fun _ => 0)) (cfgAttn demoCfg)) 0 demoCfg).get ⟨k, hk⟩) + 1)
            else MVal.adMlp "a" demoCfg.add_bias demoCfg.add_scale
              (.orig (2 * ((addKept (findParents (freshState demoBase (fun _ => true)
                  (fun _ => 0)) (cfgAttn demoCfg)) 0 demoCfg).get ⟨k, hk⟩) + 1)))) :=
  @add_adapter_targets_last_layers (freshState demoBase (fun _ => true) (fun _ => 0))
    "a" demoCfg demoCfg 0 rfl (by decide) rfl rfl rfl
    (by decide) (by decide) (by decide) (by decide)
    (fun p => 2 * p) (fun p => 2 * p + 1) (by decide) (by decide)

/-- A multi-modal demo config (the shape `__post_init__` would reject,
used here to probe the multi-modal branches of the lifecycle engine). -/
def mmCfg : AdaptionPromptV2Config :=
  { attention_module := some "sa", mlp_module := some "m",
    adapter_len := 1, adapter_layers := 1,
    multi_modal := true, supported_modals := some ["image"] }

/-- C1 counterexample: in the multi-modal case the first kept parent's
mlp is never wrapped, but `_remove_adapted_modules` unconditionally reads
`.model` on the mlp slot, so `disable_adapter_layers` raises
AttributeError and leaves the second parent's attention still wrapped:
the disabled model is not restored to the original structure. -/
theorem disable_multi_modal_fails_to_restore :
    (add_adapter "a" mmCfg (freshState demoBase (fun _ => true) (fun _ => 0))).2 = none ∧
    (disable_adapter_layers
        (add_adapter "a" mmCfg (freshState demoBase (fun _ => true) (fun _ => 0))).1).2
      = some .attributeError ∧
    ¬ ((disable_adapter_layers
          (add_adapter "a" mmCfg (freshState demoBase (fun _ => true) (fun _ => 0))).1).1).graph
        1 "sa"
      = (freshState demoBase (fun _ => true) (fun _ => 0)).graph 1 "sa" := by
  refine ⟨by decide, by decide, by decide⟩

/-- C1 (amended to non-multi-modal adapters): after a successful
`add_adapter` of a non-multi-modal config, `disable_adapter_layers`
succeeds and restores every parent's attention and mlp attributes to
exactly the original submodules present before `add_adapter`, so the
disabled model's module graph is pointwise identical to the original
one and the parameter values are untouched. -/
theorem disable_restores_original_structure
    {s0 : MState} {name : String} {cfg0 cfg : AdaptionPromptV2Config} {firstP : Nat}
    (hprep : prepare_config s0.base.modelType cfg0 = .ok cfg)
    (hname : s0.configs.lookup name = none)
    (hactive : s0.active = none)
    (henabled : s0.enabled = true)
    (hinfer : cfg.inference_mode = false)
    (hne : cfgAttn cfg ≠ cfgMlp cfg)
    (hmm : cfg.multi_modal = false)
    (hhead : (findParents s0 (cfgAttn cfg)).head? = some firstP)
    (hlenOK : ¬ (findParents s0 (cfgAttn cfg)).length < cfg.adapter_layers)
    (ka km : Nat → Nat)
    (hslots : ∀ p ∈ addKept (findParents s0 (cfgAttn cfg)) firstP cfg,
      s0.graph p (cfgAttn cfg) = some (.orig (ka p)) ∧
      s0.graph p (cfgMlp cfg) = some (.orig (km p)))
    (hnodup : (addKept (findParents s0 (cfgAttn cfg)) firstP cfg).Nodup) :
    (add_adapter name cfg0 s0).2 = none ∧
    (disable_adapter_layers (add_adapter name cfg0 s0).1).2 = none ∧
    (∀ q b, ((disable_adapter_layers (add_adapter name cfg0 s0).1).1).graph q b
      = s0.graph q b) ∧
    ((disable_adapter_layers (add_adapter name cfg0 s0).1).1).paramVals = s0.paramVals ∧
    ((disable_adapter_layers (add_adapter name cfg0 s0).1).1).enabled = false := by
  obtain ⟨a2, apar, acfgs, aact, aen, acache, apv, abase, aframe, aeff⟩ :=
    add_adapter_ok hprep hname hactive henabled hinfer hne hhead hlenOK ka km hslots hnodup
  set kept := addKept (findParents s0 (cfgAttn cfg)) firstP cfg with hkept
  set s1 := (add_adapter name cfg0 s0).1 with hs1
  have hdis : disable_adapter_layers s1
      = remove_adapted_modules (some name) { s1 with enabled := false } := by
    unfold disable_adapter_layers
    rw [aact]
  set s1f : MState := { s1 with enabled := false } with hs1f
  have hg1 : s1f.graph = s1.graph := rfl
  have hslots1 : ∀ p ∈ kept,
      s1f.graph p (cfgAttn cfg)
        = some (MVal.adAttn name cfg.add_bias cfg.add_scale ["text"] (.orig (ka p))) ∧
      (MVal.adAttn name cfg.add_bias cfg.add_scale ["text"] (.orig (ka p))).modelAttr
        = some (MVal.orig (ka p)) ∧
      s1f.graph p (cfgMlp cfg)
        = some (MVal.adMlp name cfg.add_bias cfg.add_scale (.orig (km p))) ∧
      (MVal.adMlp name cfg.add_bias cfg.add_scale (.orig (km p))).modelAttr
        = some (MVal.orig (km p)) := by
    intro p hp
    obtain ⟨⟨k, hk⟩, hget⟩ := List.mem_iff_get.mp hp
    obtain ⟨ea, em⟩ := aeff k hk
    rw [hget] at ea em
    have hc : ¬ (cfg.multi_modal = true ∧ k = 0) := by
      rintro ⟨h, _⟩
      rw [hmm] at h
      exact Bool.false_ne_true h
    rw [if_neg hc] at ea em
    exact ⟨hg1 ▸ ea, rfl, hg1 ▸ em, rfl⟩
  have hcfg1 : s1f.configs.lookup name = some cfg := by
    show s1.configs.lookup name = some cfg
    rw [acfgs]
    exact alSet_lookup_self _ _ _
  have hps1 : s1f.parentsD.lookup name = some kept := by
    show s1.parentsD.lookup name = some kept
    rw [apar]
    exact alSet_lookup_self _ _ _
  obtain ⟨r2, rcache, rpar, rcfgs, ract, ren, rpn, rrg, rpv, rbase, rframe, reff⟩ :=
    remove_adapted_modules_ok hcfg1 hps1 hne
      (fun p => MVal.adAttn name cfg.add_bias cfg.add_scale ["text"] (.orig (ka p)))
      (fun p => MVal.adMlp name cfg.add_bias cfg.add_scale (.orig (km p)))
      (fun p => MVal.orig (ka p)) (fun p => MVal.orig (km p)) hslots1 hnodup
  rw [hdis]
  refine ⟨a2, r2, ?_, ?_, ?_⟩
  · intro q b
    by_cases hq : q ∈ kept
    · by_cases hba : b = cfgAttn cfg
      · subst hba
        rw [(reff q hq).1]
        exact ((hslots q hq).1).symm
      · by_cases hbm : b = cfgMlp cfg
        · subst hbm
          rw [(reff q hq).2]
          exact ((hslots q hq).2).symm
        · rw [rframe q b (Or.inr ⟨hba, hbm⟩)]
          rw [hg1]
          exact aframe q b (Or.inr ⟨hba, hbm⟩)
    · rw [rframe q b (Or.inl hq)]
      rw [hg1]
      exact aframe q b (Or.inl hq)
  · rw [rpv]
    exact apv
  · rw [ren]

/-- C1 witness: the amended theorem applied to the demo model. -/
theorem disable_restores_original_structure_witness :
    (add_adapter "a" demoCfg (freshState demoBase (fun _ => true) (fun _ => 0))).2 = none ∧
    (disable_adapter_layers
        (add_adapter "a" demoCfg (freshState demoBase (fun _ => true) (fun _ => 0))).1).2
      = none ∧
    (∀ q b, ((disable_adapter_layers
          (add_adapter "a" demoCfg (freshState demoBase (fun _ => true) (fun _ => 0))).1).1).graph
        q b
      = (freshState demoBase (fun _ => true) (fun _ => 0)).graph q b) ∧
    ((disable_adapter_layers
        (add_adapter "a" demoCfg (freshState demoBase (fun _ => true) (fun _ => 0))).1).1).paramVals
      = (freshState demoBase (fun _ => true) (fun _ => 0)).paramVals ∧
    ((disable_adapter_layers
        (add_adapter "a" demoCfg (freshState demoBase (fun _ => true) (fun _ => 0))).1).1).enabled
      = false :=
  @disable_restores_original_structure (freshState demoBase (fun _ => true) (fun _ => 0))
    "a" demoCfg demoCfg 0 rfl (by decide) rfl rfl rfl
    (by decide) rfl (by decide) (by decide)
    (fun p => 2 * p) (fun p => 2 * p + 1) (by decide) (by decide)

/-- C6 counterexample: with a multi-modal adapter, `disable_adapter_layers`
raises AttributeError before the cache write, so the following
`enable_adapter_layers` raises KeyError and the first parent's attention
slot ends up unwrapped — disable-then-enable is not the identity. -/
theorem disable_enable_multi_modal_not_identity :
    (add_adapter "a" mmCfg (freshState demoBase (fun _ => true) (fun _ => 0))).2 = none ∧
    (disable_adapter_layers
        (add_adapter "a" mmCfg (freshState demoBase (fun _ => true) (fun _ => 0))).1).2
      = some .attributeError ∧
    (enable_adapter_layers
        (disable_adapter_layers
          (add_adapter "a" mmCfg (freshState demoBase (fun _ => true) (fun _ => 0))).1).1).2
      = some .keyError ∧
    ¬ ((enable_adapter_layers
          (disable_adapter_layers
            (add_adapter "a" mmCfg
              (freshState demoBase (fun _ => true) (fun _ => 0))).1).1).1).graph 0 "sa"
      = ((add_adapter "a" mmCfg (freshState demoBase (fun _ => true) (fun _ => 0))).1).graph
          0 "sa" := by
  refine ⟨by decide, by decide, by decide, by decide⟩

/-- C6 (amended to non-multi-modal adapters on a state whose cache has no
entry for the adapter): `disable_adapter_layers` stores the exact
Adapted* pairs in the cache and `enable_adapter_layers` reinstalls them,
consuming the cache entry; the round trip returns the state to exactly
the state before disabling. -/
theorem disable_enable_roundtrip_identity
    {s0 : MState} {name : String} {cfg0 cfg : AdaptionPromptV2Config} {firstP : Nat}
    (hprep : prepare_config s0.base.modelType cfg0 = .ok cfg)
    (hname : s0.configs.lookup name = none)
    (hactive : s0.active = none)
    (henabled : s0.enabled = true)
    (hinfer : cfg.inference_mode = false)
    (hne : cfgAttn cfg ≠ cfgMlp cfg)
    (hmm : cfg.multi_modal = false)
    (hcache0 : s0.cachedD.lookup name = none)
    (hhead : (findParents s0 (cfgAttn cfg)).head? = some firstP)
    (hlenOK : ¬ (findParents s0 (cfgAttn cfg)).length < cfg.adapter_layers)
    (ka km : Nat → Nat)
    (hslots : ∀ p ∈ addKept (findParents s0 (cfgAttn cfg)) firstP cfg,
      s0.graph p (cfgAttn cfg) = some (.orig (ka p)) ∧
      s0.graph p (cfgMlp cfg) = some (.orig (km p)))
    (hnodup : (addKept (findParents s0 (cfgAttn cfg)) firstP cfg).Nodup) :
    (add_adapter name cfg0 s0).2 = none ∧
    (disable_adapter_layers (add_adapter name cfg0 s0).1).2 = none ∧
    ((disable_adapter_layers (add_adapter name cfg0 s0).1).1).cachedD.lookup name
      = some ((addKept (findParents s0 (cfgAttn cfg)) firstP cfg).map
          (fun p => (MVal.adAttn name cfg.add_bias cfg.add_scale ["text"] (.orig (ka p)),
            MVal.adMlp name cfg.add_bias cfg.add_scale (.orig (km p))))) ∧
    (enable_adapter_layers (disable_adapter_layers (add_adapter name cfg0 s0).1).1).2
      = none ∧
    (enable_adapter_layers (disable_adapter_layers (add_adapter name cfg0 s0).1).1).1
      = (add_adapter name cfg0 s0).1 ∧
    ((enable_adapter_layers
        (disable_adapter_layers (add_adapter name cfg0 s0).1).1).1).cachedD.lookup name
      = none := by
  obtain ⟨a2, apar, acfgs, aact, aen, acache, apv, abase, aframe, aeff⟩ :=
    add_adapter_ok hprep hname hactive henabled hinfer hne hhead hlenOK ka km hslots hnodup
  set kept := addKept (findParents s0 (cfgAttn cfg)) firstP cfg with hkept
  set s1 := (add_adapter name cfg0 s0).1 with hs1
  set wA : Nat → MVal :=
    fun p => MVal.adAttn name cfg.add_bias cfg.add_scale ["text"] (.orig (ka p)) with hwA
  set wM : Nat → MVal :=
    fun p => MVal.adMlp name cfg.add_bias cfg.add_scale (.orig (km p)) with hwM
  have hdis : disable_adapter_layers s1
      = remove_adapted_modules (some name) { s1 with enabled := false } := by
    unfold disable_adapter_layers
    rw [aact]
  have hslots1 : ∀ p ∈ kept,
      (MState.graph { s1 with enabled := false }) p (cfgAttn cfg) = some (wA p) ∧
      (wA p).modelAttr = some (MVal.orig (ka p)) ∧
      (MState.graph { s1 with enabled := false }) p (cfgMlp cfg) = some (wM p) ∧
      (wM p).modelAttr = some (MVal.orig (km p)) := by
    intro p hp
    obtain ⟨⟨k, hk⟩, hget⟩ := List.mem_iff_get.mp hp
    obtain ⟨ea, em⟩ := aeff k hk
    rw [hget] at ea em
    have hc : ¬ (cfg.multi_modal = true ∧ k = 0) := by
      rintro ⟨h, _⟩
      rw [hmm] at h
      exact Bool.false_ne_true h
    rw [if_neg hc] at ea em
    exact ⟨ea, rfl, em, rfl⟩
  have hcfg1 : (MState.configs { s1 with enabled := false }).lookup name = some cfg := by
    show s1.configs.lookup name = some cfg
    rw [acfgs]
    exact alSet_lookup_self _ _ _
  have hps1 : (MState.parentsD { s1 with enabled := false }).lookup name = some kept := by
    show s1.parentsD.lookup name = some kept
    rw [apar]
    exact alSet_lookup_self _ _ _
  obtain ⟨r2, rcache, rpar, rcfgs, ract, ren, rpn, rrg, rpv, rbase, rframe, reff⟩ :=
    remove_adapted_modules_ok hcfg1 hps1 hne wA wM
      (fun p => MVal.orig (ka p)) (fun p => MVal.orig (km p)) hslots1 hnodup
  set s2 := (remove_adapted_modules (some name) { s1 with enabled := false }).1 with hs2
  have hcl : s2.cachedD = alSet name (kept.map (fun p => (wA p, wM p))) s1.cachedD := rcache
  have hact2 : s2.active = some name := by
    rw [ract]
    exact aact
  have hen : enable_adapter_layers s2
      = set_adapted_modules (some name) { s2 with enabled := true } := by
    unfold enable_adapter_layers
    rw [hact2]
  have hcache2 : (MState.cachedD { s2 with enabled := true }).lookup name
      = some (kept.map (fun p => (wA p, wM p))) := by
    show s2.cachedD.lookup name = _
    rw [hcl]
    exact alSet_lookup_self _ _ _
  have hcfg2 : (MState.configs { s2 with enabled := true }).lookup name = some cfg := by
    show s2.configs.lookup name = some cfg
    rw [rcfgs]
    exact hcfg1
  have hps2 : (MState.parentsD { s2 with enabled := true }).lookup name = some kept := by
    show s2.parentsD.lookup name = some kept
    rw [rpar]
    exact hps1
  have hlen2 : kept.length ≤ (kept.map (fun p => (wA p, wM p))).length := by
    simp
  obtain ⟨e2, ecache, epar, ecfgs, eact, een, epn, erg, epv, ebase, eframe, eeff⟩ :=
    set_adapted_modules_ok hcache2 hcfg2 hps2 hne hlen2 hnodup
  have hs3eq : (set_adapted_modules (some name) { s2 with enabled := true }).1 = s1 := by
    apply MState.ext'
    · exact ebase.trans rbase
    · funext q b
      by_cases hq : q ∈ kept
      · obtain ⟨⟨k, hk⟩, hget⟩ := List.mem_iff_get.mp hq
        obtain ⟨ea1, em1⟩ := aeff k hk
        have hc : ¬ (cfg.multi_modal = true ∧ k = 0) := by
          rintro ⟨h, _⟩
          rw [hmm] at h
          exact Bool.false_ne_true h
        rw [if_neg hc] at ea1 em1
        rw [hget] at ea1 em1
        obtain ⟨f1, f2⟩ := eeff k hk
        have hkk : (kept.map (fun p => (wA p, wM p)))[k]?
            = some (wA (kept.get ⟨k, hk⟩), wM (kept.get ⟨k, hk⟩)) := by
          rw [List.getElem?_map, List.getElem?_eq_getElem hk]
          rfl
        rw [hkk] at f1 f2
        rw [hget] at f1 f2
        by_cases hba : b = cfgAttn cfg
        · subst hba
          rw [f1, ea1]
          rfl
        · by_cases hbm : b = cfgMlp cfg
          · subst hbm
            rw [f2, em1]
            rfl
          · rw [eframe q b (Or.inr ⟨hba, hbm⟩)]
            exact rframe q b (Or.inr ⟨hba, hbm⟩)
      · rw [eframe q b (Or.inl hq)]
        exact rframe q b (Or.inl hq)
    · exact epar.trans rpar
    · rw [ecache]
      show alErase name (MState.cachedD { s2 with enabled := true }) = s1.cachedD
      show alErase name s2.cachedD = s1.cachedD
      rw [hcl]
      rw [show s1.cachedD = s0.cachedD from acache]
      exact alErase_alSet_of_lookup_none name _ s0.cachedD hcache0
    · exact ecfgs.trans rcfgs
    · exact eact.trans ract
    · rw [een]
      exact aen.symm
    · exact epn.trans rpn
    · exact erg.trans rrg
    · exact epv.trans rpv
  refine ⟨a2, ?_, ?_, ?_, ?_, ?_⟩
  · rw [hdis]
    exact r2
  · rw [hdis]
    show s2.cachedD.lookup name = _
    rw [hcl]
    exact alSet_lookup_self _ _ _
  · rw [hdis]
    rw [hen]
    exact e2
  · rw [hdis]
    rw [hen, hs3eq]
  · rw [hdis]
    rw [hen, hs3eq]
    rw [show s1.cachedD = s0.cachedD from acache]
    exact hcache0

/-- C6 witness: the amended round-trip theorem applied to the demo model. -/
theorem disable_enable_roundtrip_identity_witness :
    (add_adapter "a" demoCfg (freshState demoBase (fun _ => true) (fun _ => 0))).2 = none ∧
    (disable_adapter_layers
        (add_adapter "a" demoCfg (freshState demoBase (fun _ => true) (fun _ => 0))).1).2
      = none ∧
    ((disable_adapter_layers
        (add_adapter "a" demoCfg
          (freshState demoBase (fun _ => true) (fun _ => 0))).1).1).cachedD.lookup "a"
      = some ((addKept (findParents (freshState demoBase (fun _ => true) (fun _ => 0))
            (cfgAttn demoCfg)) 0 demoCfg).map
          (fun p => (MVal.adAttn "a" demoCfg.add_bias demoCfg.add_scale ["text"]
              (.orig (2 * p)),
            MVal.adMlp "a" demoCfg.add_bias demoCfg.add_scale (.orig (2 * p + 1))))) ∧
    (enable_adapter_layers
        (disable_adapter_layers
          (add_adapter "a" demoCfg (freshState demoBase (fun _ => true) (fun _ => 0))).1).1).2
      = none ∧
    (enable_adapter_layers
        (disable_adapter_layers
          (add_adapter "a" demoCfg (freshState demoBase (fun _ => true) (fun _ => 0))).1).1).1
      = (add_adapter "a" demoCfg (freshState demoBase (fun _ => true) (fun _ => 0))).1 ∧
    ((enable_adapter_layers
        (disable_adapter_layers
          (add_adapter "a" demoCfg
            (freshState demoBase (fun _ => true) (fun _ => 0))).1).1).1).cachedD.lookup "a"
      = none :=
  @disable_enable_roundtrip_identity (freshState demoBase (fun _ => true) (fun _ => 0))
    "a" demoCfg demoCfg 0 rfl (by decide) rfl rfl rfl
    (by decide) rfl (by decide) (by decide) (by decide)
    (fun p => 2 * p) (fun p => 2 * p + 1) (by decide) (by decide)

/-- The attention slot of parent `p` holds an AdaptedAttention belonging
to adapter `a`. -/
def taggedAttn (s : MState) (a : String) (p : Nat) (an : String) : Bool :=
  match s.graph p an with
  | some (.adAttn t _ _ _ _) => t == a
  | _ => false

/-- The mlp slot of parent `p` holds an AdaptedMLP belonging to `a`. -/
def taggedMlp (s : MState) (a : String) (p : Nat) (mn : String) : Bool :=
  match s.graph p mn with
  | some (.adMlp t _ _ _) => t == a
  | _ => false

/-- Adapter `a` has its Adapted* modules installed in the model: every
recorded parent carries `a`'s AdaptedAttention, and also `a`'s AdaptedMLP
except on the first parent of a multi-modal config. -/
def adapterInstalled (s : MState) (a : String) : Bool :=
  match s.configs.lookup a, s.parentsD.lookup a with
  | some cfg, some ps =>
    (List.range ps.length).all (fun i =>
      match ps[i]? with
      | some p =>
        taggedAttn s a p (cfgAttn cfg) &&
          ((cfg.multi_modal && (i == 0)) || taggedMlp s a p (cfgMlp cfg))
      | none => false)
  | _, _ => false

/-- The C5 invariant: while the mechanism is enabled, the active adapter
is installed and absent from the cache, and every other registered
adapter is stored in the cache. -/
def c5Inv (s : MState) : Bool :=
  !s.enabled ||
    (match s.active with
     | none => true
     | some a =>
       (s.cachedD.lookup a).isNone && adapterInstalled s a &&
         s.configs.all (fun pr => pr.1 == a || (s.cachedD.lookup pr.1).isSome))

/-- C5 counterexample: from a state satisfying the invariant (a
multi-modal adapter active, enabled), `add_adapter` of a second adapter
raises AttributeError inside `_remove_adapted_modules` and leaves the
invariant broken: the active adapter is now neither fully installed nor
cached. -/
theorem add_adapter_error_breaks_installed_invariant :
    c5Inv (add_adapter "a" mmCfg (freshState demoBase (fun _ => true) (fun _ => 0))).1
      = true ∧
    (add_adapter "b" demoCfg
        (add_adapter "a" mmCfg (freshState demoBase (fun _ => true) (fun _ => 0))).1).2
      = some .attributeError ∧
    c5Inv (add_adapter "b" demoCfg
        (add_adapter "a" mmCfg (freshState demoBase (fun _ => true) (fun _ => 0))).1).1
      = false := by
  refine ⟨by decide, by decide, by decide⟩

theorem lookup_none_keys {k : String} {d : List (String × α)} (h : d.lookup k = none) :
    ∀ pr ∈ d, pr.1 ≠ k := by
  induction d with
  | nil =>
    intro pr hpr
    cases hpr
  | cons hd tl ih =>
    obtain ⟨k1, v1⟩ := hd
    intro pr hpr
    by_cases hk : (k == k1) = true
    · rw [List.lookup_cons] at h
      simp [hk] at h
    · have hk2 : (k == k1) = false := by
        cases hbe : (k == k1) with
        | true => exact absurd hbe hk
        | false => rfl
      simp only [List.lookup_cons, hk2] at h
      rcases List.mem_cons.mp hpr with e | hm
      · subst e
        exact fun e2 => (beq_eq_false_iff_ne.mp hk2) e2.symm
      · exact ih h pr hm

theorem alSet_of_lookup_none (k : String) (v : α) (d : List (String × α))
    (h : d.lookup k = none) : alSet k v d = d ++ [(k, v)] := by
  unfold alSet
  rw [h]
  simp

theorem taggedAttn_of {s : MState} {a : String} {p : Nat} {an : String}
    {t1 t2 : Bool} {t3 : List String} {inner : MVal}
    (h : s.graph p an = some (.adAttn a t1 t2 t3 inner)) : taggedAttn s a p an = true := by
  unfold taggedAttn
  rw [h]
  simp

theorem taggedMlp_of {s : MState} {a : String} {p : Nat} {mn : String}
    {t1 t2 : Bool} {inner : MVal}
    (h : s.graph p mn = some (.adMlp a t1 t2 inner)) : taggedMlp s a p mn = true := by
  unfold taggedMlp
  rw [h]
  simp

theorem adapterInstalled_of {s : MState} {a : String} {cfg : AdaptionPromptV2Config}
    {ps : List Nat} (hcfg : s.configs.lookup a = some cfg)
    (hps : s.parentsD.lookup a = some ps)
    (h : ∀ k, (hk : k < ps.length) →
      taggedAttn s a (ps.get ⟨k, hk⟩) (cfgAttn cfg) = true ∧
      ((cfg.multi_modal && (k == 0)) || taggedMlp s a (ps.get ⟨k, hk⟩) (cfgMlp cfg))
        = true) :
    adapterInstalled s a = true := by
  unfold adapterInstalled
  rw [hcfg, hps]
  apply List.all_eq_true.mpr
  intro i hi
  have hi2 : i < ps.length := List.mem_range.mp hi
  rw [List.getElem?_eq_getElem hi2]
  obtain ⟨h1, h2⟩ := h i hi2
  show (taggedAttn s a (ps.get ⟨i, hi2⟩) (cfgAttn cfg) &&
    ((cfg.multi_modal && (i == 0)) || taggedMlp s a (ps.get ⟨i, hi2⟩) (cfgMlp cfg))) = true
  rw [h1, h2]
  rfl

theorem c5Inv_of_parts {s : MState} {a : String} (hen : s.enabled = true)
    (hact : s.active = some a) (h1 : (s.cachedD.lookup a).isNone = true)
    (h2 : adapterInstalled s a = true)
    (h3 : s.configs.all (fun pr => pr.1 == a || (s.cachedD.lookup pr.1).isSome) = true) :
    c5Inv s = true := by
  unfold c5Inv
  rw [hen, hact]
  show (!true || ((s.cachedD.lookup a).isNone && adapterInstalled s a &&
    s.configs.all (fun pr => pr.1 == a || (s.cachedD.lookup pr.1).isSome))) = true
  rw [h1, h2, h3]
  rfl

theorem add_with_active_ok
    {s0 : MState} {name a : String} {cfg0 cfg acfg : AdaptionPromptV2Config}
    {firstP : Nat} {aps : List Nat}
    (hprep : prepare_config s0.base.modelType cfg0 = .ok cfg)
    (hname : s0.configs.lookup name = none)
    (hactive : s0.active = some a)
    (henabled : s0.enabled = true)
    (hinfer : cfg.inference_mode = false)
    (hne : cfgAttn cfg ≠ cfgMlp cfg)
    (hacfg : s0.configs.lookup a = some acfg)
    (haps : s0.parentsD.lookup a = some aps)
    (hsameA : cfgAttn acfg = cfgAttn cfg)
    (hsameM : cfgMlp acfg = cfgMlp cfg)
    (hnodupA : aps.Nodup)
    (ka km : Nat → Nat) (wA wM : Nat → MVal)
    (hwAm : ∀ p, (wA p).modelAttr = some (.orig (ka p)))
    (hwMm : ∀ p, (wM p).modelAttr = some (.orig (km p)))
    (hslotsA : ∀ p ∈ aps, s0.graph p (cfgAttn cfg) = some (wA p) ∧
      s0.graph p (cfgMlp cfg) = some (wM p))
    (hhead : (findParents s0 (cfgAttn cfg)).head? = some firstP)
    (hlenOK : ¬ (findParents s0 (cfgAttn cfg)).length < cfg.adapter_layers)
    (hkslots : ∀ p ∈ addKept (findParents s0 (cfgAttn cfg)) firstP cfg, p ∉ aps →
      s0.graph p (cfgAttn cfg) = some (.orig (ka p)) ∧
      s0.graph p (cfgMlp cfg) = some (.orig (km p)))
    (hnodupK : (addKept (findParents s0 (cfgAttn cfg)) firstP cfg).Nodup) :
    (add_adapter name cfg0 s0).2 = none ∧
    ((add_adapter name cfg0 s0).1).parentsD
      = alSet name (addKept (findParents s0 (cfgAttn cfg)) firstP cfg) s0.parentsD ∧
    ((add_adapter name cfg0 s0).1).configs = alSet name cfg s0.configs ∧
    ((add_adapter name cfg0 s0).1).active = some name ∧
    ((add_adapter name cfg0 s0).1).enabled = true ∧
    ((add_adapter name cfg0 s0).1).cachedD
      = alSet a (aps.map (fun p => (wA p, wM p))) s0.cachedD ∧
    ((add_adapter name cfg0 s0).1).paramVals = s0.paramVals ∧
    ((add_adapter name cfg0 s0).1).base = s0.base ∧
    (∀ q b, ((q ∉ addKept (findParents s0 (cfgAttn cfg)) firstP cfg ∧ q ∉ aps) ∨
        (b ≠ cfgAttn cfg ∧ b ≠ cfgMlp cfg)) →
      ((add_adapter name cfg0 s0).1).graph q b = s0.graph q b) ∧
    (∀ k, (hk : k < (addKept (findParents s0 (cfgAttn cfg)) firstP cfg).length) →
      ((add_adapter name cfg0 s0).1).graph
          ((addKept (findParents s0 (cfgAttn cfg)) firstP cfg).get ⟨k, hk⟩) (cfgAttn cfg)
        = some (if cfg.multi_modal = true ∧ k = 0
            then MVal.adAttn name false false (attnModals cfg.supported_modals)
              (.orig (ka ((addKept (findParents s0 (cfgAttn cfg)) firstP cfg).get ⟨k, hk⟩)))
            else MVal.adAttn name cfg.add_bias cfg.add_scale ["text"]
              (.orig (ka ((addKept (findParents s0 (cfgAttn cfg)) firstP cfg).get ⟨k, hk⟩)))) ∧
      ((add_adapter name cfg0 s0).1).graph
          ((addKept (findParents s0 (cfgAttn cfg)) firstP cfg).get ⟨k, hk⟩) (cfgMlp cfg)
        = some (if cfg.multi_modal = true ∧ k = 0
            then MVal.orig (km ((addKept (findParents s0 (cfgAttn cfg)) firstP cfg).get ⟨k, hk⟩))
            else MVal.adMlp name cfg.add_bias cfg.add_scale
              (.orig (km ((addKept (findParents s0 (cfgAttn cfg)) firstP cfg).get ⟨k, hk⟩))))) ∧
    (∀ p ∈ aps, p ∉ addKept (findParents s0 (cfgAttn cfg)) firstP cfg →
      ((add_adapter name cfg0 s0).1).graph p (cfgAttn cfg) = some (.orig (ka p)) ∧
      ((add_adapter name cfg0 s0).1).graph p (cfgMlp cfg) = some (.orig (km p))) := by
  have han : a ≠ name := by
    intro e
    rw [e, hname] at hacfg
    exact Option.noConfusion hacfg
  have e1 : ¬ ((s0.configs.lookup name).isSome = true) := by
    rw [hname]
    simp
  set kept := addKept (findParents s0 (cfgAttn cfg)) firstP cfg with hkept
  set s0p : MState := { s0 with parentsD := alSet name kept s0.parentsD } with hs0p
  have hred : add_adapter name cfg0 s0 = addInstall name cfg kept s0p := by
    unfold add_adapter
    rw [hprep]
    try dsimp only
    rw [if_neg e1, if_neg hlenOK, hhead]
  have hneA : cfgAttn acfg ≠ cfgMlp acfg := by
    rw [hsameA, hsameM]
    exact hne
  have hcfgA : s0p.configs.lookup a = some acfg := hacfg
  have hpsA : s0p.parentsD.lookup a = some aps := by
    show (alSet name kept s0.parentsD).lookup a = some aps
    rw [alSet_lookup_ne name kept s0.parentsD han, haps]
  have hslotsA2 : ∀ p ∈ aps, s0p.graph p (cfgAttn acfg) = some (wA p) ∧
      (wA p).modelAttr = some (MVal.orig (ka p)) ∧
      s0p.graph p (cfgMlp acfg) = some (wM p) ∧
      (wM p).modelAttr = some (MVal.orig (km p)) := by
    intro p hp
    rw [hsameA, hsameM]
    exact ⟨(hslotsA p hp).1, hwAm p, (hslotsA p hp).2, hwMm p⟩
  obtain ⟨r2, rcache, rpar, rcfgs, ract, ren, rpn, rrg, rpv, rbase, rframe, reff⟩ :=
    remove_adapted_modules_ok hcfgA hpsA hneA wA wM
      (fun p => MVal.orig (ka p)) (fun p => MVal.orig (km p)) hslotsA2 hnodupA
  cases hrm : remove_adapted_modules (some a) s0p with
  | mk s2 rres =>
    rw [hrm] at r2 rcache rpar rcfgs ract ren rpn rrg rpv rbase rframe reff
    dsimp only at r2
    subst r2
    set s3 : MState := { s2 with active := some name, configs := alSet name cfg s2.configs } with hs3
    have hreffC : ∀ p ∈ aps, s2.graph p (cfgAttn cfg) = some (.orig (ka p)) ∧
        s2.graph p (cfgMlp cfg) = some (.orig (km p)) := by
      intro p hp
      have h := reff p hp
      rw [hsameA, hsameM] at h
      exact h
    have hslots3 : ∀ p ∈ kept, s3.graph p (cfgAttn cfg) = some (.orig (ka p)) ∧
        s3.graph p (cfgMlp cfg) = some (.orig (km p)) := by
      intro p hp
      by_cases hpa : p ∈ aps
      · exact hreffC p hpa
      · have hfr1 : s2.graph p (cfgAttn cfg) = s0p.graph p (cfgAttn cfg) := by
          apply rframe
          rw [hsameA, hsameM]
          exact Or.inl hpa
        have hfr2 : s2.graph p (cfgMlp cfg) = s0p.graph p (cfgMlp cfg) := by
          apply rframe
          rw [hsameA, hsameM]
          exact Or.inl hpa
        have hk := hkslots p hp hpa
        exact ⟨hfr1.trans hk.1, hfr2.trans hk.2⟩
    obtain ⟨c2, ceq, cframe, ceff⟩ :=
      @createAdaptedModules_ok name cfg hne kept ka km 0 s3 hslots3 hnodupK
    cases hcr : createAdaptedModules name cfg kept 0 s3 with
    | mk s4 cres =>
      rw [hcr] at c2 ceq cframe ceff
      dsimp only at c2
      subst c2
      have h4en : s4.enabled = true := by
        rw [ceq.enabled]
        show s2.enabled = true
        rw [ren]
        exact henabled
      have hinst : addInstall name cfg kept s0p = (s4, none) := by
        unfold addInstall
        rw [if_pos ⟨(by rw [show s0p.active = some a from hactive]; simp :
            s0p.active ≠ none), (henabled : s0p.enabled = true)⟩]
        rw [show s0p.active = some a from hactive]
        rw [hrm]
        rw [bindOp_none]
        try dsimp only
        rw [hcr]
        rw [bindOp_none]
        try dsimp only
        rw [if_neg (by rw [h4en]; simp)]
        rw [bindOp_none]
        try dsimp only
        rw [if_neg (by simp [hinfer])]
      rw [hred, hinst]
      refine ⟨rfl, ?_, ?_, ?_, ?_, ?_, ?_, ?_, ?_, ?_, ?_⟩
      · rw [ceq.parentsD]
        show s2.parentsD = _
        rw [rpar]
      · rw [ceq.configs]
        show alSet name cfg s2.configs = _
        rw [rcfgs]
      · rw [ceq.active]
      · exact h4en
      · rw [ceq.cachedD]
        show s2.cachedD = _
        rw [rcache]
      · rw [ceq.paramVals]
        show s2.paramVals = _
        rw [rpv]
      · rw [ceq.base]
        show s2.base = _
        rw [rbase]
      · intro q b hqb
        rcases hqb with ⟨hqk, hqa⟩ | hb
        · rw [cframe q b (Or.inl hqk)]
          show s2.graph q b = _
          apply rframe
          rw [hsameA, hsameM]
          exact Or.inl hqa
        · rw [cframe q b (Or.inr hb)]
          show s2.graph q b = _
          apply rframe
          rw [hsameA, hsameM]
          exact Or.inr hb
      · intro k hk
        obtain ⟨ea, em⟩ := ceff k hk
        rw [Nat.zero_add] at ea em
        exact ⟨ea, em⟩
      · intro p hpa hpk
        have h1 : s4.graph p (cfgAttn cfg) = s3.graph p (cfgAttn cfg) :=
          cframe p (cfgAttn cfg) (Or.inl hpk)
        have h2 : s4.graph p (cfgMlp cfg) = s3.graph p (cfgMlp cfg) :=
          cframe p (cfgMlp cfg) (Or.inl hpk)
        have h3 := hreffC p hpa
        exact ⟨h1.trans h3.1, h2.trans h3.2⟩

theorem set_adapter_switch_ok
    {s : MState} {a b : String} {acfg bcfg : AdaptionPromptV2Config}
    {aps bps : List Nat} {bcached : List (MVal × MVal)}
    (hactive : s.active = some a)
    (hab : b ≠ a)
    (henabled : s.enabled = true)
    (hbcfg : s.configs.lookup b = some bcfg)
    (hacfg : s.configs.lookup a = some acfg)
    (haps : s.parentsD.lookup a = some aps)
    (hneA : cfgAttn acfg ≠ cfgMlp acfg)
    (hnodupA : aps.Nodup)
    (wA wM iA iM : Nat → MVal)
    (hslotsA : ∀ p ∈ aps, s.graph p (cfgAttn acfg) = some (wA p) ∧
      (wA p).modelAttr = some (iA p) ∧
      s.graph p (cfgMlp acfg) = some (wM p) ∧ (wM p).modelAttr = some (iM p))
    (hbcache : s.cachedD.lookup b = some bcached)
    (hbps : s.parentsD.lookup b = some bps)
    (hneB : cfgAttn bcfg ≠ cfgMlp bcfg)
    (hlenB : bps.length ≤ bcached.length)
    (hnodupB : bps.Nodup) :
    (set_adapter b s).2 = none ∧
    ((set_adapter b s).1).active = some b ∧
    ((set_adapter b s).1).cachedD
      = alErase b (alSet a (aps.map (fun p => (wA p, wM p))) s.cachedD) ∧
    ((set_adapter b s).1).parentsD = s.parentsD ∧
    ((set_adapter b s).1).configs = s.configs ∧
    ((set_adapter b s).1).enabled = true ∧
    ((set_adapter b s).1).paramNames = s.paramNames ∧
    ((set_adapter b s).1).reqGrad = s.reqGrad ∧
    ((set_adapter b s).1).paramVals = s.paramVals ∧
    ((set_adapter b s).1).base = s.base ∧
    (∀ k, (hk : k < bps.length) →
      ((set_adapter b s).1).graph (bps.get ⟨k, hk⟩) (cfgAttn bcfg)
        = (bcached[k]?).map Prod.fst ∧
      ((set_adapter b s).1).graph (bps.get ⟨k, hk⟩) (cfgMlp bcfg)
        = (bcached[k]?).map Prod.snd) := by
  have hg1 : ¬ (s.active = some b) := by
    rw [hactive]
    intro e
    exact hab (Option.some.inj e).symm
  have hg2 : ¬ ((s.configs.lookup b).isNone = true) := by
    rw [hbcfg]
    simp
  have hred : set_adapter b s
      = bindOp (remove_adapted_modules (some a) s) (fun s1 =>
          bindOp (set_adapted_modules (some b) s1) (fun s2 =>
            ({ s2 with active := some b }, none))) := by
    unfold set_adapter
    rw [if_neg hg1, if_neg hg2, if_pos henabled, hactive]
  obtain ⟨r2, rcache, rpar, rcfgs, ract, ren, rpn, rrg, rpv, rbase, rframe, reff⟩ :=
    remove_adapted_modules_ok hacfg haps hneA wA wM iA iM hslotsA hnodupA
  cases hrm : remove_adapted_modules (some a) s with
  | mk s1 rres =>
    rw [hrm] at r2 rcache rpar rcfgs ract ren rpn rrg rpv rbase rframe reff
    dsimp only at r2
    subst r2
    have hcache1 : s1.cachedD.lookup b = some bcached := by
      rw [rcache, alSet_lookup_ne a _ s.cachedD hab]
      exact hbcache
    have hcfg1 : s1.configs.lookup b = some bcfg := by
      rw [rcfgs]
      exact hbcfg
    have hps1 : s1.parentsD.lookup b = some bps := by
      rw [rpar]
      exact hbps
    obtain ⟨e2, ecache, epar, ecfgs, eact, een, epn, erg, epv, ebase, eframe, eeff⟩ :=
      set_adapted_modules_ok hcache1 hcfg1 hps1 hneB hlenB hnodupB
    cases hsm : set_adapted_modules (some b) s1 with
    | mk s2 sres =>
      rw [hsm] at e2 ecache epar ecfgs eact een epn erg epv ebase eframe eeff
      dsimp only at e2
      subst e2
      have hfin : set_adapter b s = ({ s2 with active := some b }, none) := by
        rw [hred, hrm]
        rw [bindOp_none]
        try dsimp only
        rw [hsm]
        rw [bindOp_none]
      rw [hfin]
      refine ⟨rfl, rfl, ?_, ?_, ?_, ?_, ?_, ?_, ?_, ?_, ?_⟩
      · show s2.cachedD = _
        rw [ecache, rcache]
      · show s2.parentsD = _
        rw [epar, rpar]
      · show s2.configs = _
        rw [ecfgs, rcfgs]
      · show s2.enabled = _
        rw [een, ren]
        exact henabled
      · show s2.paramNames = _
        rw [epn, rpn]
      · show s2.reqGrad = _
        rw [erg, rrg]
      · show s2.paramVals = _
        rw [epv, rpv]
      · show s2.base = _
        rw [ebase, rbase]
      · intro k hk
        exact eeff k hk

/-- C5 (amended to non-multi-modal adapters, with well-formedness of the
registered adapters): while the mechanism is enabled, a successful
`add_adapter` and a successful `set_adapter` each preserve the invariant
that the active adapter's Adapted* modules are installed and absent from
`_cached_adapters` while every other registered adapter's modules are
cached; moreover `set_adapter` moves the previously active adapter's
modules into the cache and installs the named adapter's cached modules. -/
theorem adapter_ops_preserve_installed_invariant
    {s : MState} {name a b : String} {cfg0 cfg acfg bcfg : AdaptionPromptV2Config}
    {firstP : Nat} {aps bps : List Nat}
    {aB aS : Bool} {aMo : List String} {aB2 aS2 : Bool}
    {bB bS : Bool} {bMo : List String} {bB2 bS2 : Bool}
    (ka km kb kb2 : Nat → Nat)
    (hactive : s.active = some a)
    (henabled : s.enabled = true)
    (hacfg : s.configs.lookup a = some acfg)
    (haps : s.parentsD.lookup a = some aps)
    (hnodupA : aps.Nodup)
    (hacache : s.cachedD.lookup a = none)
    (hothers : ∀ pr ∈ s.configs, pr.1 ≠ a → (s.cachedD.lookup pr.1).isSome = true)
    (hslotsA : ∀ p ∈ aps, s.graph p (cfgAttn acfg)
        = some (.adAttn a aB aS aMo (.orig (ka p))) ∧
      s.graph p (cfgMlp acfg) = some (.adMlp a aB2 aS2 (.orig (km p))))
    (hprep : prepare_config s.base.modelType cfg0 = .ok cfg)
    (hname : s.configs.lookup name = none)
    (hncache : s.cachedD.lookup name = none)
    (hinfer : cfg.inference_mode = false)
    (hmmc : cfg.multi_modal = false)
    (hne : cfgAttn cfg ≠ cfgMlp cfg)
    (hsameA : cfgAttn acfg = cfgAttn cfg)
    (hsameM : cfgMlp acfg = cfgMlp cfg)
    (hhead : (findParents s (cfgAttn cfg)).head? = some firstP)
    (hlenOK : ¬ (findParents s (cfgAttn cfg)).length < cfg.adapter_layers)
    (hkslots : ∀ p ∈ addKept (findParents s (cfgAttn cfg)) firstP cfg, p ∉ aps →
      s.graph p (cfgAttn cfg) = some (.orig (ka p)) ∧
      s.graph p (cfgMlp cfg) = some (.orig (km p)))
    (hnodupK : (addKept (findParents s (cfgAttn cfg)) firstP cfg).Nodup)
    (hab : b ≠ a)
    (hbcfg : s.configs.lookup b = some bcfg)
    (hbps : s.parentsD.lookup b = some bps)
    (hneB : cfgAttn bcfg ≠ cfgMlp bcfg)
    (hnodupB : bps.Nodup)
    (hbcache : s.cachedD.lookup b
      = some (bps.map (fun p => (MVal.adAttn b bB bS bMo (.orig (kb p)),
          MVal.adMlp b bB2 bS2 (.orig (kb2 p)))))) :
    c5Inv s = true ∧
    (add_adapter name cfg0 s).2 = none ∧
    c5Inv (add_adapter name cfg0 s).1 = true ∧
    (set_adapter b s).2 = none ∧
    c5Inv (set_adapter b s).1 = true ∧
    ((set_adapter b s).1).active = some b ∧
    ((set_adapter b s).1).cachedD.lookup a
      = some (aps.map (fun p => (MVal.adAttn a aB aS aMo (.orig (ka p)),
          MVal.adMlp a aB2 aS2 (.orig (km p))))) ∧
    ((set_adapter b s).1).cachedD.lookup b = none ∧
    (∀ k, (hk : k < bps.length) →
      ((set_adapter b s).1).graph (bps.get ⟨k, hk⟩) (cfgAttn bcfg)
        = some (.adAttn b bB bS bMo (.orig (kb (bps.get ⟨k, hk⟩)))) ∧
      ((set_adapter b s).1).graph (bps.get ⟨k, hk⟩) (cfgMlp bcfg)
        = some (.adMlp b bB2 bS2 (.orig (kb2 (bps.get ⟨k, hk⟩))))) := by
  have han : name ≠ a := by
    intro e
    rw [e, hacfg] at hname
    exact Option.noConfusion hname
  have hpre : c5Inv s = true := by
    apply c5Inv_of_parts henabled hactive
    · rw [hacache]
      rfl
    · apply adapterInstalled_of hacfg haps
      intro k hk
      have hp : aps.get ⟨k, hk⟩ ∈ aps := List.get_mem aps k hk
      obtain ⟨h1, h2⟩ := hslotsA _ hp
      refine ⟨taggedAttn_of h1, ?_⟩
      rw [taggedMlp_of h2]
      simp
    · apply List.all_eq_true.mpr
      intro pr hpr
      by_cases hpa : pr.1 = a
      · simp [hpa]
      · rw [hothers pr hpr hpa]
        simp
  have hslotsA2 : ∀ p ∈ aps, s.graph p (cfgAttn cfg)
      = some (MVal.adAttn a aB aS aMo (.orig (ka p))) ∧
      s.graph p (cfgMlp cfg) = some (MVal.adMlp a aB2 aS2 (.orig (km p))) := by
    intro p hp
    have h := hslotsA p hp
    rw [hsameA, hsameM] at h
    exact h
  obtain ⟨aok, apar, acfgs, aact, aen, acache2, apv, abase, aframe, aeff, armv⟩ :=
    add_with_active_ok hprep hname hactive henabled hinfer hne hacfg haps hsameA hsameM
      hnodupA ka km
      (fun p => MVal.adAttn a aB aS aMo (.orig (ka p)))
      (fun p => MVal.adMlp a aB2 aS2 (.orig (km p)))
      (fun p => rfl) (fun p => rfl)
      hslotsA2 hhead hlenOK hkslots hnodupK
  have hpost : c5Inv (add_adapter name cfg0 s).1 = true := by
    apply c5Inv_of_parts aen aact
    · rw [acache2, alSet_lookup_ne a _ s.cachedD han, hncache]
      rfl
    · apply @adapterInstalled_of ((add_adapter name cfg0 s).1) name cfg
        (addKept (findParents s (cfgAttn cfg)) firstP cfg)
      · rw [acfgs]
        exact alSet_lookup_self _ _ _
      · rw [apar]
        exact alSet_lookup_self _ _ _
      · intro k hk
        obtain ⟨ea, em⟩ := aeff k hk
        have hc : ¬ (cfg.multi_modal = true ∧ k = 0) := by
          rintro ⟨h, _⟩
          rw [hmmc] at h
          exact Bool.false_ne_true h
        rw [if_neg hc] at ea em
        refine ⟨taggedAttn_of ea, ?_⟩
        rw [taggedMlp_of em]
        simp
    · rw [acfgs, alSet_of_lookup_none name cfg s.configs hname]
      apply List.all_eq_true.mpr
      intro pr hpr
      rcases List.mem_append.mp hpr with hm | hm
      · have hprn : pr.1 ≠ name := lookup_none_keys hname pr hm
        rw [acache2]
        by_cases hpa : pr.1 = a
        · rw [hpa, alSet_lookup_self]
          simp
        · rw [alSet_lookup_ne a _ s.cachedD hpa, hothers pr hm hpa]
          simp
      · rcases List.mem_singleton.mp hm with e
        rw [e]
        simp
  obtain ⟨sok, sact, scache, spar, scfgs, sen, spn, srg, spv, sbase, seff⟩ :=
    set_adapter_switch_ok hactive hab henabled hbcfg hacfg haps
      (by rw [hsameA, hsameM]; exact hne) hnodupA
      (fun p => MVal.adAttn a aB aS aMo (.orig (ka p)))
      (fun p => MVal.adMlp a aB2 aS2 (.orig (km p)))
      (fun p => MVal.orig (ka p)) (fun p => MVal.orig (km p))
      (fun p hp => ⟨(hslotsA p hp).1, rfl, (hslotsA p hp).2, rfl⟩)
      hbcache hbps hneB (by simp) hnodupB
  have hlba : ((set_adapter b s).1).cachedD.lookup a
      = some (aps.map (fun p => (MVal.adAttn a aB aS aMo (.orig (ka p)),
          MVal.adMlp a aB2 aS2 (.orig (km p))))) := by
    rw [scache, alErase_lookup_ne b _ (fun e => hab e.symm), alSet_lookup_self]
  have hlbb : ((set_adapter b s).1).cachedD.lookup b = none := by
    rw [scache]
    exact alErase_lookup_self _ _
  have hseff2 : ∀ k, (hk : k < bps.length) →
      ((set_adapter b s).1).graph (bps.get ⟨k, hk⟩) (cfgAttn bcfg)
        = some (.adAttn b bB bS bMo (.orig (kb (bps.get ⟨k, hk⟩)))) ∧
      ((set_adapter b s).1).graph (bps.get ⟨k, hk⟩) (cfgMlp bcfg)
        = some (.adMlp b bB2 bS2 (.orig (kb2 (bps.get ⟨k, hk⟩)))) := by
    intro k hk
    obtain ⟨f1, f2⟩ := seff k hk
    rw [List.getElem?_map, List.getElem?_eq_getElem hk] at f1 f2
    exact ⟨f1, f2⟩
  have hposts : c5Inv (set_adapter b s).1 = true := by
    apply c5Inv_of_parts sen sact
    · rw [hlbb]
      rfl
    · apply @adapterInstalled_of ((set_adapter b s).1) b bcfg bps
      · rw [scfgs]
        exact hbcfg
      · rw [spar]
        exact hbps
      · intro k hk
        obtain ⟨f1, f2⟩ := hseff2 k hk
        refine ⟨taggedAttn_of f1, ?_⟩
        rw [taggedMlp_of f2]
        simp
    · rw [scfgs]
      apply List.all_eq_true.mpr
      intro pr hpr
      by_cases hpb : pr.1 = b
      · simp [hpb]
      · rw [scache, alErase_lookup_ne b _ hpb]
        by_cases hpa : pr.1 = a
        · rw [hpa, alSet_lookup_self]
          simp
        · rw [alSet_lookup_ne a _ s.cachedD hpa, hothers pr hpr hpa]
          simp
  exact ⟨hpre, aok, hpost, sok, hposts, sact, hlba, hlbb, hseff2⟩

/-- A demo state with an active adapter `x` installed and an adapter `y`
stored in the cache, produced by two `add_adapter` calls. -/
def c5DemoState : MState :=
  (add_adapter "x" demoCfg
    (add_adapter "y" demoCfg (freshState demoBase (fun _ => true) (fun _ => 0))).1).1

/-- C5 witness: the amended theorem applied to the demo state. -/
theorem adapter_ops_preserve_installed_invariant_witness :
    c5Inv c5DemoState = true ∧
    (add_adapter "z" demoCfg c5DemoState).2 = none ∧
    c5Inv (add_adapter "z" demoCfg c5DemoState).1 = true ∧
    (set_adapter "y" c5DemoState).2 = none ∧
    c5Inv (set_adapter "y" c5DemoState).1 = true ∧
    ((set_adapter "y" c5DemoState).1).active = some "y" ∧
    ((set_adapter "y" c5DemoState).1).cachedD.lookup "x"
      = some (([1] : List Nat).map
          (fun p => (MVal.adAttn "x" true true ["text"] (.orig (2 * p)),
            MVal.adMlp "x" true true (.orig (2 * p + 1))))) ∧
    ((set_adapter "y" c5DemoState).1).cachedD.lookup "y" = none ∧
    (∀ k, (hk : k < ([1] : List Nat).length) →
      ((set_adapter "y" c5DemoState).1).graph (([1] : List Nat).get ⟨k, hk⟩)
          (cfgAttn demoCfg)
        = some (.adAttn "y" true true ["text"]
            (.orig (2 * (([1] : List Nat).get ⟨k, hk⟩)))) ∧
      ((set_adapter "y" c5DemoState).1).graph (([1] : List Nat).get ⟨k, hk⟩)
          (cfgMlp demoCfg)
        = some (.adMlp "y" true true
            (.orig (2 * (([1] : List Nat).get ⟨k, hk⟩) + 1)))) :=
  @adapter_ops_preserve_installed_invariant c5DemoState "z" "x" "y"
    demoCfg demoCfg demoCfg demoCfg 0 [1] [1]
    true true ["text"] true true true true ["text"] true true
    (fun p => 2 * p) (fun p => 2 * p + 1) (fun p => 2 * p) (fun p => 2 * p + 1)
    (by decide) (by decide) (by decide) (by decide) (by decide) (by decide)
    (by decide) (by decide) rfl (by decide) (by decide) rfl rfl (by decide)
    rfl rfl (by decide) (by decide) (by decide) (by decide) (by decide)
    (by decide) (by decide) (by decide) (by decide) (by decide)

/-- The optional o-projection application of `AdaptedAttention.forward`:
the adapter output is passed through the configured o-projection layer
when the model type has one (reading it from the current child slots). -/
def oProjApply (TO : TOps T P) (mtc : ModelTypeConfig)
    (attrs : String → Option LChild) (t : T) : T :=
  match mtc.o_proj_layer with
  | none => t
  | some oL =>
    match attrs oL with
    | none => t
    | some oc => TO.applyChild oc t

/-- One additive step of the adapter-output loop: the modal's adaption
gate times the softmax of the scaled query-key scores, times the adapter
value, reshaped, o-projected and added to the running output. -/
def adapterStep (TO : TOps T P) (mtc : ModelTypeConfig)
    (attrs : String → Option LChild) (gates : List (String × T)) (q : T)
    (acc : T) (pr : String × (T × T)) : T :=
  match gates.lookup pr.1 with
  | none => acc
  | some g =>
    TO.addT acc (oProjApply TO mtc attrs (TO.reshapeOut (TO.matmulT
      (TO.gateMul g (TO.softmaxF (TO.scaleScores (TO.matmulT
        (TO.typeAs q (pr.2).1) (TO.transpose23 (pr.2).1)))))
      (pr.2).2)))

theorem kvLoop_ok {T P : Type} (TO : TOps T P) (mtc : ModelTypeConfig)
    (hiddenSize : Nat) (attrs : String → Option LChild) :
    ∀ (ps : List (String × T)) {r},
      kvLoop TO mtc hiddenSize attrs ps = .ok r →
      List.Forall₂ (fun (pr : String × T) (kv : String × (T × T)) =>
        kv.1 = pr.1 ∧ ∃ k v,
          projKV TO mtc hiddenSize attrs pr.2 = .ok (k, v) ∧
          kv.2 = (TO.viewRepT k, TO.viewRepT v)) ps r := by
  intro ps
  induction ps with
  | nil =>
    intro r h
    simp only [kvLoop] at h
    cases h
    exact List.Forall₂.nil
  | cons hd tl ih =>
    intro r h
    obtain ⟨m, pr⟩ := hd
    simp only [kvLoop] at h
    cases hpj : projKV TO mtc hiddenSize attrs pr with
    | error e =>
      rw [hpj] at h
      cases h
    | ok kv =>
      rw [hpj] at h
      cases hrec : kvLoop TO mtc hiddenSize attrs tl with
      | error e =>
        rw [hrec] at h
        cases h
      | ok rr =>
        rw [hrec] at h
        cases h
        exact List.Forall₂.cons ⟨rfl, kv.1, kv.2, hpj, rfl⟩ (ih hrec)

theorem adapterAccum_ok {T P : Type} (TO : TOps T P) (mtc : ModelTypeConfig)
    (attrs : String → Option LChild) (gates : List (String × T)) (q : T) :
    ∀ (kvs : List (String × (T × T))) (out : T) {r},
      adapterAccum TO mtc attrs gates q kvs out = .ok r →
      (∀ pr ∈ kvs, (gates.lookup pr.1).isSome = true) ∧
      r = kvs.foldl (adapterStep TO mtc attrs gates q) out := by
  intro kvs
  induction kvs with
  | nil =>
    intro out r h
    simp only [adapterAccum] at h
    cases h
    exact ⟨fun pr hpr => absurd hpr (by simp), rfl⟩
  | cons hd tl ih =>
    intro out r h
    obtain ⟨m, kv⟩ := hd
    simp only [adapterAccum] at h
    cases hg : gates.lookup m with
    | none =>
      rw [hg] at h
      dsimp only at h
      cases h
    | some g =>
      rw [hg] at h
      dsimp only at h
      cases ho : mtc.o_proj_layer with
      | none =>
        rw [ho] at h
        dsimp only at h
        obtain ⟨hgs, hr⟩ := ih _ h
        refine ⟨?_, ?_⟩
        · intro pr hpr
          rcases List.mem_cons.mp hpr with e | hm
          · rw [e, hg]
            rfl
          · exact hgs pr hm
        · rw [hr]
          show _ = List.foldl _ (adapterStep TO mtc attrs gates q out (m, kv)) tl
          simp only [adapterStep, hg, oProjApply, ho]
      | some oL =>
        rw [ho] at h
        dsimp only at h
        cases ha : attrs oL with
        | none =>
          rw [ha] at h
          dsimp only at h
          cases h
        | some oc =>
          rw [ha] at h
          dsimp only at h
          obtain ⟨hgs, hr⟩ := ih _ h
          refine ⟨?_, ?_⟩
          · intro pr hpr
            rcases List.mem_cons.mp hpr with e | hm
            · rw [e, hg]
              rfl
            · exact hgs pr hm
          · rw [hr]
            show _ = List.foldl _ (adapterStep TO mtc attrs gates q out (m, kv)) tl
            simp only [adapterStep, hg, oProjApply, ho, ha]

theorem organize_head {T P : Type} {mt : String} {ao : T} {aw pkv : PyV T P}
    {outs : List (PyV T P)}
    (h : organize_adapted_attention_model_outputs mt ao aw pkv = .ok outs) :
    outs.head? = some (.tensor ao) := by
  unfold organize_adapted_attention_model_outputs at h
  split at h
  · cases h
    rfl
  · split at h
    · cases h
      rfl
    · cases h

/-- C2: whenever `AdaptedAttention.forward` returns normally, its first
output entry is the wrapped attention module's output tensor plus, for
each modal's adaption prompt in order, an additive term
`adaption_gate * softmax(query_states @ adapter_k^T / sqrt(head_dim)) @ adapter_v`
(reshaped and passed through the o-projection layer when the model type
configures one), where `(adapter_k, adapter_v)` are the k/v projections
of that modal's trainable prompt put through the view/repeat/transpose
pipeline; the prompts contribute only additively to the attention
output. -/
theorem adapted_attention_additive_output {T P : Type} (TO : TOps T P)
    (A : AttnState T) (hid : Option T) (outs : List (PyV T P))
    (h : (attnForward TO A hid false).2 = .ok outs) :
    ∃ (mtc : ModelTypeConfig) (out0 : T) (pkv : PyV T P)
      (kvs : List (String × (T × T))),
      TRANSFORMERS_MODEL_CONFIG.lookup A.modelType = some mtc ∧
      handle_origin_attention_module_outputs A.modelType
          (TO.baseCall (setAdaptedLinears A.linears A.attrs) hid)
        = .ok (.tensor out0, pkv) ∧
      kvLoop TO mtc A.hiddenSize (setAdaptedLinears A.linears A.attrs) A.prompts
        = .ok kvs ∧
      List.Forall₂ (fun (pr : String × T) (kv : String × (T × T)) =>
        kv.1 = pr.1 ∧ ∃ k v,
          projKV TO mtc A.hiddenSize (setAdaptedLinears A.linears A.attrs) pr.2
            = .ok (k, v) ∧
          kv.2 = (TO.viewRepT k, TO.viewRepT v)) A.prompts kvs ∧
      (∀ pr ∈ kvs, (A.gates.lookup pr.1).isSome = true) ∧
      outs.head? = some (.tensor (kvs.foldl
        (adapterStep TO mtc (setAdaptedLinears A.linears A.attrs) A.gates
          (TO.computeQuery (setAdaptedLinears A.linears A.attrs) hid)) out0)) := by
  simp only [attnForward] at h
  cases hH : handle_origin_attention_module_outputs A.modelType
      (TO.baseCall (setAdaptedLinears A.linears A.attrs) hid) with
  | error e =>
    rw [hH] at h
    dsimp only at h
    cases h
  | ok op =>
    obtain ⟨outPv, pkv⟩ := op
    rw [hH] at h
    dsimp only at h
    cases hM : TRANSFORMERS_MODEL_CONFIG.lookup A.modelType with
    | none =>
      rw [hM] at h
      dsimp only at h
      cases h
    | some mtc =>
      rw [hM] at h
      dsimp only at h
      cases outPv with
      | past p =>
        dsimp only at h
        cases h
      | pynone =>
        dsimp only at h
        cases h
      | tensor out0 =>
        dsimp only at h
        cases hK : kvLoop TO mtc A.hiddenSize (setAdaptedLinears A.linears A.attrs)
            A.prompts with
        | error e =>
          rw [hK] at h
          dsimp only at h
          cases h
        | ok kvs =>
          rw [hK] at h
          dsimp only at h
          cases hA : adapterAccum TO mtc (setAdaptedLinears A.linears A.attrs) A.gates
              (TO.computeQuery (setAdaptedLinears A.linears A.attrs) hid) kvs out0 with
          | error e =>
            rw [hA] at h
            dsimp only at h
            cases h
          | ok out =>
            rw [hA] at h
            dsimp only at h
            obtain ⟨hgs, hfold⟩ := adapterAccum_ok TO mtc _ A.gates _ kvs out0 hA
            refine ⟨mtc, out0, pkv, kvs, rfl, rfl, hK,
              kvLoop_ok TO mtc A.hiddenSize _ A.prompts hK, hgs, ?_⟩
            rw [organize_head h, hfold]

/-- A concrete tensor-kernel bundle over `Nat` for exercising the
adapted attention forward pass. -/
def natTO : TOps Nat Nat where
  baseCall := fun _ hid => [.tensor ((hid.getD 0) + 100), .pynone, .past 7]
  computeQuery := fun _ hid => (hid.getD 0) + 1
  applyChild := fun c t => match c with
    | .lin l => t + l.lid
    | .alin al => t + al.model.lid + 50
  splitChunks := fun t _ => [t, t + 1, t + 2]
  viewRepT := fun t => 2 * t
  matmulT := fun a b => a + b
  transpose23 := fun t => t + 3
  typeAs := fun a _ => a
  scaleScores := fun t => t + 5
  softmaxF := fun t => t + 7
  gateMul := fun g t => g * 1000 + t
  reshapeOut := fun t => t + 11
  addT := fun a b => a + b

/-- Concrete llama-style children of a wrapped attention module. -/
def natChildren : List (String × LChild) :=
  [("k_proj", .lin ⟨1⟩), ("v_proj", .lin ⟨2⟩), ("o_proj", .lin ⟨4⟩), ("q_proj", .lin ⟨8⟩)]

/-- A concrete `AdaptedAttention` state over `Nat` tensors. -/
def natAttn : AttnState Nat :=
  { modelType := "llama", hiddenSize := 4, adapterLen := 1,
    prompts := [("text", 13)], gates := [("text", 3)],
    linears := collectLinears natChildren true true,
    attrs := fun n => natChildren.lookup n,
    vals := fun _ => 0 }

/-- C2 witness: the additive-output theorem applied to the concrete
adapted attention state. -/
theorem adapted_attention_additive_output_witness :
    (attnForward natTO natAttn (some 5) false).2
      = .ok [.tensor 3449, .pynone, .past 7] ∧
    (∃ (mtc : ModelTypeConfig) (out0 : Nat) (pkv : PyV Nat Nat)
      (kvs : List (String × (Nat × Nat))),
      TRANSFORMERS_MODEL_CONFIG.lookup natAttn.modelType = some mtc ∧
      handle_origin_attention_module_outputs natAttn.modelType
          (natTO.baseCall (setAdaptedLinears natAttn.linears natAttn.attrs) (some 5))
        = .ok (.tensor out0, pkv) ∧
      kvLoop natTO mtc natAttn.hiddenSize
          (setAdaptedLinears natAttn.linears natAttn.attrs) natAttn.prompts
        = .ok kvs ∧
      List.Forall₂ (fun (pr : String × Nat) (kv : String × (Nat × Nat)) =>
        kv.1 = pr.1 ∧ ∃ k v,
          projKV natTO mtc natAttn.hiddenSize
              (setAdaptedLinears natAttn.linears natAttn.attrs) pr.2 = .ok (k, v) ∧
          kv.2 = (natTO.viewRepT k, natTO.viewRepT v)) natAttn.prompts kvs ∧
      (∀ pr ∈ kvs, (natAttn.gates.lookup pr.1).isSome = true) ∧
      ([PyV.tensor 3449, .pynone, .past 7] : List (PyV Nat Nat)).head?
        = some (.tensor (kvs.foldl
          (adapterStep natTO mtc (setAdaptedLinears natAttn.linears natAttn.attrs)
            natAttn.gates
            (natTO.computeQuery (setAdaptedLinears natAttn.linears natAttn.attrs)
              (some 5))) out0))) :=
  ⟨rfl,
   adapted_attention_additive_output natTO natAttn (some 5)
     [.tensor 3449, .pynone, .past 7] rfl⟩

theorem setAdaptedLinears_not_key :
    ∀ (ls : List (String × ALin)) (f : String → Option LChild) (n : String),
      (∀ pr ∈ ls, pr.1 ≠ n) → setAdaptedLinears ls f n = f n := by
  intro ls
  induction ls with
  | nil =>
    intro f n _
    rfl
  | cons pr ls ih =>
    intro f n hk
    show setAdaptedLinears ls (fun m => if m = pr.1 then some (.alin pr.2) else f m) n = f n
    rw [ih _ n (fun qr hq => hk qr (List.mem_cons_of_mem pr hq))]
    show (if n = pr.1 then some (LChild.alin pr.2) else f n) = f n
    rw [if_neg (fun e => hk pr (List.mem_cons_self pr ls) e.symm)]

theorem setAdaptedLinears_key :
    ∀ (ls : List (String × ALin)) (f : String → Option LChild),
      (ls.map Prod.fst).Nodup →
      ∀ pr ∈ ls, setAdaptedLinears ls f pr.1 = some (.alin pr.2) := by
  intro ls
  induction ls with
  | nil =>
    intro f _ pr hpr
    cases hpr
  | cons qr ls ih =>
    intro f hn pr hpr
    rw [List.map_cons] at hn
    have hq : qr.1 ∉ ls.map Prod.fst := (List.nodup_cons.mp hn).1
    have hn2 : (ls.map Prod.fst).Nodup := (List.nodup_cons.mp hn).2
    rcases List.mem_cons.mp hpr with e | hm
    · subst e
      show setAdaptedLinears ls (fun m => if m = pr.1 then some (.alin pr.2) else f m) pr.1
        = _
      rw [setAdaptedLinears_not_key ls _ pr.1
        (fun tr htr e2 => hq (e2 ▸ List.mem_map_of_mem Prod.fst htr))]
      show (if pr.1 = pr.1 then some (LChild.alin pr.2) else f pr.1) = _
      rw [if_pos rfl]
    · show setAdaptedLinears ls (fun m => if m = qr.1 then some (.alin qr.2) else f m) pr.1
        = _
      exact ih _ hn2 pr hm

theorem removeAdaptedLinears_restore :
    ∀ (ls : List (String × ALin)) (g f : String → Option LChild) (n : String),
      (∀ pr ∈ ls, f pr.1 = some (.lin pr.2.model)) →
      (g n = f n ∨ ∃ pr ∈ ls, pr.1 = n) →
      removeAdaptedLinears ls g n = f n := by
  intro ls
  induction ls with
  | nil =>
    intro g f n _ hd
    rcases hd with e | ⟨pr, hpr, _⟩
    · exact e
    · cases hpr
  | cons qr ls ih =>
    intro g f n hcoh hd
    show removeAdaptedLinears ls (fun m => if m = qr.1 then some (.lin qr.2.model) else g m) n
      = f n
    apply ih _ f n (fun pr hpr => hcoh pr (List.mem_cons_of_mem qr hpr))
    by_cases hq : n = qr.1
    · left
      show (if n = qr.1 then some (LChild.lin qr.2.model) else g n) = f n
      rw [if_pos hq, hq, hcoh qr (List.mem_cons_self qr ls)]
    · rcases hd with e | ⟨pr, hpr, he⟩
      · left
        show (if n = qr.1 then some (LChild.lin qr.2.model) else g n) = f n
        rw [if_neg hq]
        exact e
      · rcases List.mem_cons.mp hpr with e2 | hm
        · rw [e2] at he
          exact absurd he.symm hq
        · exact Or.inr ⟨pr, hm, he⟩

theorem set_remove_roundtrip (ls : List (String × ALin)) (f : String → Option LChild)
    (hcoh : ∀ pr ∈ ls, f pr.1 = some (.lin pr.2.model)) :
    ∀ n, removeAdaptedLinears ls (setAdaptedLinears ls f) n = f n := by
  intro n
  by_cases hex : ∃ pr ∈ ls, pr.1 = n
  · exact removeAdaptedLinears_restore ls _ f n hcoh (Or.inr hex)
  · push_neg at hex
    exact removeAdaptedLinears_restore ls _ f n hcoh
      (Or.inl (setAdaptedLinears_not_key ls f n hex))

theorem collectLinears_keys_sublist (children : List (String × LChild)) (b s : Bool) :
    ((collectLinears children b s).map Prod.fst).Sublist (children.map Prod.fst) := by
  induction children with
  | nil => simp [collectLinears]
  | cons c cs ih =>
    obtain ⟨n, ch⟩ := c
    cases ch with
    | lin l =>
      show ((collectLinears ((n, LChild.lin l) :: cs) b s).map Prod.fst).Sublist _
      have he : collectLinears ((n, LChild.lin l) :: cs) b s
          = (n, ⟨l, b, s⟩) :: collectLinears cs b s := rfl
      rw [he, List.map_cons, List.map_cons]
      exact List.Sublist.cons₂ n ih
    | alin a =>
      have he : collectLinears ((n, LChild.alin a) :: cs) b s = collectLinears cs b s := rfl
      rw [he, List.map_cons]
      exact List.Sublist.cons n ih

theorem collectLinears_mem {children : List (String × LChild)} {b s : Bool}
    {pr : String × ALin} (h : pr ∈ collectLinears children b s) :
    (pr.1, LChild.lin pr.2.model) ∈ children := by
  unfold collectLinears at h
  obtain ⟨x, hx, hfx⟩ := List.mem_filterMap.mp h
  obtain ⟨n, ch⟩ := x
  cases ch with
  | lin l =>
    simp only at hfx
    cases hfx
    exact hx
  | alin a =>
    simp only at hfx
    cases hfx

theorem lookup_of_mem_nodup {β : Type} :
    ∀ {l : List (String × β)} {k : String} {v : β},
      (l.map Prod.fst).Nodup → (k, v) ∈ l → l.lookup k = some v := by
  intro l
  induction l with
  | nil =>
    intro k v _ h
    cases h
  | cons pr ls ih =>
    intro k v hn h
    obtain ⟨k1, v1⟩ := pr
    rw [List.map_cons] at hn
    rcases List.mem_cons.mp h with e | hm
    · injection e with e1 e2
      subst e1
      subst e2
      simp [List.lookup_cons]
    · have hk : k ≠ k1 := by
        intro e
        subst e
        have hmem : k ∈ List.map Prod.fst ls := by
          have h2 := List.mem_map_of_mem Prod.fst hm
          exact h2
        exact (List.nodup_cons.mp hn).1 hmem
      have hbeq : (k == k1) = false := beq_eq_false_iff_ne.mpr hk
      simp only [List.lookup_cons, hbeq]
      exact ih (List.nodup_cons.mp hn).2 hm

theorem attnForward_restores {T P : Type} (TO : TOps T P) (A : AttnState T)
    (hid : Option T) (outs : List (PyV T P))
    (hcoh : ∀ pr ∈ A.linears, A.attrs pr.1 = some (.lin pr.2.model))
    (h : (attnForward TO A hid false).2 = .ok outs) :
    ∀ n, ((attnForward TO A hid false).1).attrs n = A.attrs n := by
  intro n
  simp only [attnForward, Bool.false_eq_true, if_false] at h ⊢
  cases hH : handle_origin_attention_module_outputs A.modelType
      (TO.baseCall (setAdaptedLinears A.linears A.attrs) hid) with
  | error e =>
    rw [hH] at h
    dsimp only at h
    cases h
  | ok op =>
    obtain ⟨outPv, pkv⟩ := op
    rw [hH] at h
    try dsimp only at h
    try dsimp only
    cases hM : TRANSFORMERS_MODEL_CONFIG.lookup A.modelType with
    | none =>
      rw [hM] at h
      dsimp only at h
      cases h
    | some mtc =>
      rw [hM] at h
      try dsimp only at h
      try dsimp only
      cases outPv with
      | past p =>
        dsimp only at h
        cases h
      | pynone =>
        dsimp only at h
        cases h
      | tensor out0 =>
        try dsimp only at h
        try dsimp only
        cases hK : kvLoop TO mtc A.hiddenSize (setAdaptedLinears A.linears A.attrs)
            A.prompts with
        | error e =>
          rw [hK] at h
          dsimp only at h
          cases h
        | ok kvs =>
          rw [hK] at h
          try dsimp only at h
          try dsimp only
          cases hA : adapterAccum TO mtc (setAdaptedLinears A.linears A.attrs) A.gates
              (TO.computeQuery (setAdaptedLinears A.linears A.attrs) hid) kvs out0 with
          | error e =>
            rw [hA] at h
            dsimp only at h
            cases h
          | ok out =>
            rw [hA] at h
            try dsimp only at h
            try dsimp only
            exact set_remove_roundtrip A.linears A.attrs hcoh n

/-- C9: the Adapted* constructors leave the wrapped module's Linear
children as plain originals; each forward call installs the AdaptedLinear
wrappers (the delegated call sees them) and a normally returning forward
restores the original `nn.Linear` modules pointwise, so the wrapping is
never observable between calls, for the attention and the mlp wrapper
alike. -/
theorem adapted_linears_not_observable_between_calls
    {T P T2 : Type} (TO : TOps T P) (mt : String) (hs al : Nat)
    (modals : Option (List String)) (pi2 gi2 : String → T)
    (children : List (String × LChild)) (b s : Bool) (vals : Nat → Int)
    (hn : (children.map Prod.fst).Nodup)
    (f2 : (String → Option LChild) → T2)
    (hid : Option T) (outs : List (PyV T P))
    (h : (attnForward TO (mkAdaptedAttention mt hs al modals pi2 gi2 children b s vals)
        hid false).2 = .ok outs) :
    (∀ pr ∈ (mkAdaptedAttention (T := T) mt hs al modals pi2 gi2 children b s vals).linears,
      (mkAdaptedAttention (T := T) mt hs al modals pi2 gi2 children b s vals).attrs pr.1
        = some (.lin pr.2.model)) ∧
    (∀ pr ∈ (mkAdaptedAttention (T := T) mt hs al modals pi2 gi2 children b s vals).linears,
      setAdaptedLinears
          (mkAdaptedAttention (T := T) mt hs al modals pi2 gi2 children b s vals).linears
          (mkAdaptedAttention (T := T) mt hs al modals pi2 gi2 children b s vals).attrs pr.1
        = some (.alin pr.2)) ∧
    (∀ n, ((attnForward TO (mkAdaptedAttention mt hs al modals pi2 gi2 children b s vals)
          hid false).1).attrs n
      = (mkAdaptedAttention (T := T) mt hs al modals pi2 gi2 children b s vals).attrs n) ∧
    (∀ n, ((mlpForward f2 (mkAdaptedMLP children b s vals)).1).attrs n
      = (mkAdaptedMLP children b s vals).attrs n) ∧
    (mlpForward f2 (mkAdaptedMLP children b s vals)).2
      = f2 (setAdaptedLinears (mkAdaptedMLP children b s vals).linears
          (mkAdaptedMLP children b s vals).attrs) := by
  have hcohA : ∀ pr ∈ (mkAdaptedAttention (T := T) mt hs al modals pi2 gi2
      children b s vals).linears,
      (mkAdaptedAttention (T := T) mt hs al modals pi2 gi2 children b s vals).attrs pr.1
        = some (.lin pr.2.model) := by
    intro pr hpr
    have hmem := collectLinears_mem hpr
    have hlk := lookup_of_mem_nodup hn hmem
    show (children.lookup pr.1).map id = some (.lin pr.2.model)
    rw [hlk]
    rfl
  have hkeys : ((collectLinears children b s).map Prod.fst).Nodup :=
    (collectLinears_keys_sublist children b s).nodup hn
  have hcohM : ∀ pr ∈ (mkAdaptedMLP children b s vals).linears,
      (mkAdaptedMLP children b s vals).attrs pr.1 = some (.lin pr.2.model) := by
    intro pr hpr
    have hmem := collectLinears_mem hpr
    have hlk := lookup_of_mem_nodup hn hmem
    show (children.lookup pr.1).map id = some (.lin pr.2.model)
    rw [hlk]
    rfl
  refine ⟨hcohA, ?_, ?_, ?_, rfl⟩
  · intro pr hpr
    exact setAdaptedLinears_key _ _ hkeys pr hpr
  · exact attnForward_restores TO _ hid outs hcohA h
  · intro n
    show removeAdaptedLinears (mkAdaptedMLP children b s vals).linears
        (setAdaptedLinears (mkAdaptedMLP children b s vals).linears
          (mkAdaptedMLP children b s vals).attrs) n
      = (mkAdaptedMLP children b s vals).attrs n
    exact set_remove_roundtrip _ _ hcohM n

/-- C9 witness: the restore theorem applied to a concrete constructed
adapted attention and mlp over `Nat` tensors. -/
theorem adapted_linears_not_observable_between_calls_witness :
    (∀ pr ∈ (mkAdaptedAttention (T := Nat) "llama" 4 1 none (fun _ => 13) (fun _ => 3)
        natChildren true true (fun _ => 0)).linears,
      (mkAdaptedAttention (T := Nat) "llama" 4 1 none (fun _ => 13) (fun _ => 3)
          natChildren true true (fun _ => 0)).attrs pr.1
        = some (.lin pr.2.model)) ∧
    (∀ pr ∈ (mkAdaptedAttention (T := Nat) "llama" 4 1 none (fun _ => 13) (fun _ => 3)
        natChildren true true (fun _ => 0)).linears,
      setAdaptedLinears
          (mkAdaptedAttention (T := Nat) "llama" 4 1 none (fun _ => 13) (fun _ => 3)
            natChildren true true (fun _ => 0)).linears
          (mkAdaptedAttention (T := Nat) "llama" 4 1 none (fun _ => 13) (fun _ => 3)
            natChildren true true (fun _ => 0)).attrs pr.1
        = some (.alin pr.2)) ∧
    (∀ n, ((attnForward natTO (mkAdaptedAttention "llama" 4 1 none (fun _ => 13)
          (fun _ => 3) natChildren true true (fun _ => 0)) (some 5) false).1).attrs n
      = (mkAdaptedAttention (T := Nat) "llama" 4 1 none (fun _ => 13) (fun _ => 3)
          natChildren true true (fun _ => 0)).attrs n) ∧
    (∀ n, ((mlpForward (fun _ => (42 : Nat))
          (mkAdaptedMLP natChildren true true (fun _ => 0))).1).attrs n
      = (mkAdaptedMLP natChildren true true (fun _ => 0)).attrs n) ∧
    (mlpForward (fun _ => (42 : Nat)) (mkAdaptedMLP natChildren true true (fun _ => 0))).2
      = (fun _ => (42 : Nat))
          (setAdaptedLinears (mkAdaptedMLP natChildren true true (fun _ => 0)).linears
            (mkAdaptedMLP natChildren true true (fun _ => 0)).attrs) :=
  adapted_linears_not_observable_between_calls natTO "llama" 4 1 none
    (fun _ => 13) (fun _ => 3) natChildren true true (fun _ => 0) (by decide)
    (fun _ => (42 : Nat)) (some 5) [.tensor 3449, .pynone, .past 7] rfl
